import Mathlib

/-!
Verification development for the TradLyte analytics core.

This file gives a shallow embedding in Lean 4 of the algorithmic core of the
repository (backtester state machine, multi-timeframe asof alignment,
scanner voting and ranking, strategy setup/trigger steps, OHLCV resampling)
and proves properties of that embedding.

Modelling conventions:
* Python floats are modelled as exact rationals (`ℚ`); the properties under
  study are statements about the arithmetic of the formulas, not about
  binary floating point rounding.
* Polars dataframes are modelled as Lean lists of row structures; a possibly
  null column cell is an `Option`; a column that may be absent from a frame
  is an `Option` of the whole column.
* Python dates are modelled as integer day numbers, so `(d2 - d1).days`
  becomes integer subtraction.
* Python truthiness tests on optional floats/ints (`if stop_loss_pct:`) are
  modelled as "present and nonzero".
* Python's stable `list.sort` / polars `sort` are modelled with the stable
  `List.insertionSort`.
-/

namespace TradLyte

/-! ## Backtester (backtester.py) -/

/-- Position record of backtester.py; exit fields are populated by
`Position.close`. -/
structure Position where
  entry_date : Int
  entry_price : ℚ
  exit_date : Option Int := none
  exit_price : Option ℚ := none
  pnl : Option ℚ := none
  pnl_pct : Option ℚ := none
  holding_days : Option Int := none
  exit_reason : Option String := none
deriving Repr, DecidableEq

/-- Position.close of backtester.py: fill all exit fields. -/
def Position.close (p : Position) (d : Int) (px : ℚ) (reason : String) : Position :=
  { p with
    exit_date := some d
    exit_price := some px
    pnl := some (px - p.entry_price)
    pnl_pct := some (px / p.entry_price - 1)
    holding_days := some (d - p.entry_date)
    exit_reason := some reason }

/-- One row of the annotated OHLCV frame consumed by Backtester.run
(date, close, signal, exit_signal columns). -/
structure Row where
  date : Int
  close : ℚ
  signal : String := "HOLD"
  exit_signal : Option String := none
deriving Repr, DecidableEq

/-- Constructor parameters of the Backtester class. -/
structure Backtester where
  initial_capital : ℚ := 10000
  commission : ℚ := 0
  slippage : ℚ := 0
deriving Repr, DecidableEq

/-- Optional exit parameters of Backtester.run. -/
structure ExitParams where
  stop_loss_pct : Option ℚ := none
  take_profit_pct : Option ℚ := none
  trailing_stop_pct : Option ℚ := none
  max_holding_days : Option Int := none
deriving Repr, DecidableEq

/-- Guard of the stop-loss branch of Backtester._check_exit_conditions:
parameter truthy (present and nonzero) and close at or below
entry × (1 − pct). -/
def slCond (ep : ExitParams) (entry_price current_price : ℚ) : Bool :=
  match ep.stop_loss_pct with
  | none => false
  | some sl => sl != 0 && decide (current_price ≤ entry_price * (1 - sl))

/-- Guard of the take-profit branch: parameter truthy and close at or above
entry × (1 + pct). -/
def tpCond (ep : ExitParams) (entry_price current_price : ℚ) : Bool :=
  match ep.take_profit_pct with
  | none => false
  | some tp => tp != 0 && decide (current_price ≥ entry_price * (1 + tp))

/-- Guard of the (simplified) trailing-stop branch: parameter truthy and
current close strictly below current close × (1 − pct). -/
def tsCond (ep : ExitParams) (current_price : ℚ) : Bool :=
  match ep.trailing_stop_pct with
  | none => false
  | some ts => ts != 0 && decide (current_price < current_price * (1 - ts))

/-- Guard of the max-holding-days branch: parameter truthy and holding days
(current date − entry date) at or above the limit. -/
def timeCond (ep : ExitParams) (entry_date current_date : Int) : Bool :=
  match ep.max_holding_days with
  | none => false
  | some mhd => mhd != 0 && decide (current_date - entry_date ≥ mhd)

/-- Backtester._check_exit_conditions: the five guards are tested in fixed
order, the first satisfied one returns its exit reason. -/
def check_exit_conditions (pos : Position) (current_date : Int) (current_price : ℚ)
    (row : Row) (ep : ExitParams) : Option String :=
  if slCond ep pos.entry_price current_price then some "stop_loss"
  else if tpCond ep pos.entry_price current_price then some "take_profit"
  else if tsCond ep current_price then some "trailing_stop"
  else if timeCond ep pos.entry_date current_date then some "time_based"
  else if row.exit_signal == some "SELL" then some "signal"
  else none

/-- Mutable loop state of Backtester.run. -/
structure RunAcc where
  openPos : Option Position
  capital : ℚ
  trades : List Position
  equity : List ℚ
deriving Repr, DecidableEq

/-- Exit-side slippage adjustment of Backtester.run. -/
def applySlippageExit (bt : Backtester) (price : ℚ) : ℚ :=
  if bt.slippage > 0 then price * (1 - bt.slippage) else price

/-- Entry-side slippage adjustment of Backtester.run. -/
def applySlippageEntry (bt : Backtester) (price : ℚ) : ℚ :=
  if bt.slippage > 0 then price * (1 + bt.slippage) else price

/-- Body of the per-row loop of Backtester.run: exit check on the open
position, then entry check, then idle equity tracking. -/
def runStep (bt : Backtester) (ep : ExitParams) (acc : RunAcc) (row : Row) : RunAcc :=
  let acc1 :=
    match acc.openPos with
    | none => acc
    | some pos =>
      match check_exit_conditions pos row.date row.close row ep with
      | none => acc
      | some reason =>
        let exit_price := applySlippageExit bt row.close
        let closed := Position.close pos row.date exit_price reason
        let pnl := (exit_price - pos.entry_price) * (acc.capital / pos.entry_price)
        let newCap := acc.capital + pnl - bt.commission * 2
        { openPos := none
          capital := newCap
          trades := acc.trades ++ [closed]
          equity := acc.equity ++ [newCap] }
  let acc2 :=
    if row.signal == "BUY" && acc1.openPos.isNone then
      let entry_price := applySlippageEntry bt row.close
      let newCap := acc1.capital - bt.commission
      { acc1 with
        openPos := some { entry_date := row.date, entry_price := entry_price }
        capital := newCap
        equity := acc1.equity ++ [newCap] }
    else acc1
  if acc2.openPos.isNone then { acc2 with equity := acc2.equity ++ [acc2.capital] } else acc2

/-- Row ordering used by the `data.sort('date')` call of Backtester.run. -/
def rowDateLE (a b : Row) : Prop := a.date ≤ b.date

instance : DecidableRel rowDateLE := fun a b => inferInstanceAs (Decidable (a.date ≤ b.date))

instance : IsTotal Row rowDateLE := ⟨fun a b => Int.le_total a.date b.date⟩

instance : IsTrans Row rowDateLE := ⟨fun _ _ _ h1 h2 => le_trans h1 h2⟩

/-- Result record of a backtest run: closed trade ledger, final capital and
equity curve (performance-metric derivation is out of scope here). -/
structure RunResult where
  trades : List Position
  final_capital : ℚ
  equity_curve : List ℚ
  initial_capital : ℚ
deriving Repr, DecidableEq

/-- Backtester.run: sort rows by date, fold the per-row state machine, then
force-close any remaining position at the last bar with reason
end_of_data. -/
def Backtester.run (bt : Backtester) (ep : ExitParams) (data : List Row) : RunResult :=
  let rows := List.insertionSort rowDateLE data
  let init : RunAcc :=
    { openPos := none, capital := bt.initial_capital, trades := [], equity := [bt.initial_capital] }
  let acc := rows.foldl (runStep bt ep) init
  match acc.openPos, rows.getLast? with
  | some pos, some lastRow =>
    let exit_price := applySlippageExit bt lastRow.close
    let closed := Position.close pos lastRow.date exit_price "end_of_data"
    let pnl := (exit_price - pos.entry_price) * (acc.capital / pos.entry_price)
    let newCap := acc.capital + pnl - bt.commission
    { trades := acc.trades ++ [closed]
      final_capital := newCap
      equity_curve := acc.equity ++ [newCap]
      initial_capital := bt.initial_capital }
  | _, _ =>
    { trades := acc.trades
      final_capital := acc.capital
      equity_curve := acc.equity
      initial_capital := bt.initial_capital }

/-- Backtester with no commission and no slippage, used by concrete runs. -/
def c1bt : Backtester := { initial_capital := 10000, commission := 0, slippage := 0 }

/-- Exit parameters of the exit-precedence scenario: 5% stop loss, 10% take
profit. -/
def c1ep : ExitParams := { stop_loss_pct := some (5/100), take_profit_pct := some (10/100) }

/-- Price path of the exit-precedence scenario: entry signal at $100, then a
bar touching $94, then a bar at $111. -/
def c1data : List Row :=
  [ { date := 0, close := 100, signal := "BUY" },
    { date := 1, close := 94 },
    { date := 2, close := 111 } ]

/-- Closed trade produced by the exit-precedence scenario: the stop-loss
fires on the $94 bar and the position closes at that bar's close, $94. -/
def c1trade : Position :=
  { entry_date := 0, entry_price := 100, exit_date := some 1, exit_price := some 94,
    pnl := some (-6), pnl_pct := some (-3/50), holding_days := some 1,
    exit_reason := some "stop_loss" }

/-- Initial loop state of the exit-precedence scenario. -/
def c1init : RunAcc := { openPos := none, capital := 10000, trades := [], equity := [10000] }

/-- Loop state after the $100 BUY bar: a position is open at $100. -/
def c1acc0 : RunAcc :=
  { openPos := some { entry_date := 0, entry_price := 100 }, capital := 10000,
    trades := [], equity := [10000, 10000] }

/-- Loop state after the $94 bar: the stop-loss closed the trade at $94. -/
def c1acc1 : RunAcc :=
  { openPos := none, capital := 9400, trades := [c1trade],
    equity := [10000, 10000, 9400, 9400] }

/-- Loop state after the final $111 bar: flat, equity tracked. -/
def c1acc2 : RunAcc :=
  { openPos := none, capital := 9400, trades := [c1trade],
    equity := [10000, 10000, 9400, 9400, 9400] }

/-- Backtester with commission $1 per trade, used by the commission scenario. -/
def c7bt : Backtester := { initial_capital := 10000, commission := 1, slippage := 0 }

/-- Price path of the commission scenario: BUY at $100, strategy exit signal
on the next bar at the same price, so the whole capital change is
commission. -/
def c7data : List Row :=
  [ { date := 0, close := 100, signal := "BUY" },
    { date := 1, close := 100, exit_signal := some "SELL" } ]

/-- Closed trade of the commission scenario (flat price, strategy exit). -/
def c7trade : Position :=
  { entry_date := 0, entry_price := 100, exit_date := some 1, exit_price := some 100,
    pnl := some 0, pnl_pct := some 0, holding_days := some 1, exit_reason := some "signal" }

/-- Initial loop state of the commission scenario. -/
def c7init : RunAcc := { openPos := none, capital := 10000, trades := [], equity := [10000] }

/-- Loop state of the commission scenario after the BUY bar: one entry
commission has been deducted. -/
def c7acc0 : RunAcc :=
  { openPos := some { entry_date := 0, entry_price := 100 }, capital := 9999,
    trades := [], equity := [10000, 9999] }

/-- Loop state of the commission scenario after the exit bar: the exit
deducted a further 2 × commission. -/
def c7acc1 : RunAcc :=
  { openPos := none, capital := 9997, trades := [c7trade],
    equity := [10000, 9999, 9997, 9997] }

/-- Exit parameters of the trailing-stop scenario: only a 50% trailing stop. -/
def c10ep : ExitParams := { trailing_stop_pct := some (1/2) }

/-- Single-bar data of the trailing-stop scenario: a BUY at $50. -/
def c10data : List Row := [ { date := 0, close := 50, signal := "BUY" } ]

/-- Trade of the trailing-stop scenario: force-closed at end of data. -/
def c10trade : Position :=
  { entry_date := 0, entry_price := 50, exit_date := some 0, exit_price := some 50,
    pnl := some 0, pnl_pct := some 0, holding_days := some 0,
    exit_reason := some "end_of_data" }

/-- Initial loop state of the trailing-stop scenario. -/
def c10init : RunAcc := { openPos := none, capital := 10000, trades := [], equity := [10000] }

/-- Loop state of the trailing-stop scenario after its single BUY bar. -/
def c10acc0 : RunAcc :=
  { openPos := some { entry_date := 0, entry_price := 50 }, capital := 10000,
    trades := [], equity := [10000, 10000] }

/-! ## MultiTimeframeExecutor (executor.py) -/

/-- Row of a higher-timeframe frame passed to align_timeframe_signals:
its date and the value of the signal column being merged. -/
structure HRow (α : Type) where
  date : Int
  val : α
deriving Repr, DecidableEq

/-- Backward asof lookup used by the polars join_asof call of
align_timeframe_signals: scan the higher-timeframe rows keeping the last one
dated at or before d. -/
def asofPick {α : Type} (higher : List (HRow α)) (d : Int) : Option (HRow α) :=
  higher.foldl (fun acc h => if h.date ≤ d then some h else acc) none

/-- align_timeframe_signals of executor.py: join_asof with strategy
backward — each base-frame date receives the signal-column value of the most
recent higher-timeframe row dated at or before it, null when none exists. -/
def align_timeframe_signals {α : Type} (base_dates : List Int) (higher : List (HRow α)) :
    List (Int × Option α) :=
  base_dates.map (fun d => (d, (asofPick higher d).map HRow.val))

/-- Higher-timeframe frame of the C2 witness: values 20 at day 2 and 70 at
day 7. -/
def c2higher : List (HRow Int) := [⟨2, 20⟩, ⟨7, 70⟩]

/-! ## DailyScanner (scanner.py): scan_symbol / scan_symbols -/

/-- SignalResult of models.py restricted to the fields the scanner and the
ranking pass read; ranking_score models metadata['ranking_score']. -/
structure SignalResult where
  symbol : String
  signal : String
  price : ℚ
  setup_valid : Bool
  trigger_met : Bool
  confidence : ℚ
  ranking_score : Option ℚ := none
deriving Repr, DecidableEq

/-- Dictionary returned by BaseStrategy.get_latest_signal. -/
structure LatestSignal where
  signal : String
  price : Option ℚ
  setup_valid : Bool
  trigger_met : Bool
deriving Repr, DecidableEq

/-- Outcome of executor.execute_strategy plus get_latest_signal for one
(symbol, strategy) pair: an exception, an empty frame, a missing latest
signal, or a latest-signal dictionary. -/
inductive EvalOutcome where
  | raises (msg : String)
  | emptyFrame
  | noLatest
  | latest (ls : LatestSignal)
deriving Repr, DecidableEq

/-- DailyScanner._calculate_confidence: 0.5 base, +0.2 if setup_valid,
+0.3 if trigger_met, capped at 1.0. -/
def calculate_confidence (setup_valid trigger_met : Bool) : ℚ :=
  min (0.5 + (if setup_valid then 0.2 else 0) + (if trigger_met then 0.3 else 0)) 1

/-- DailyScanner.scan_symbol: any exception is caught and turned into None;
empty frames, missing latest signals and HOLD signals also yield None;
otherwise a SignalResult is produced with the heuristic confidence. -/
def scan_symbol (evalOf : String → String → EvalOutcome) (symbol strategy : String) :
    Option SignalResult :=
  match evalOf symbol strategy with
  | .raises _ => none
  | .emptyFrame => none
  | .noLatest => none
  | .latest ls =>
    if ls.signal == "HOLD" then none
    else some {
      symbol := symbol
      signal := ls.signal
      price := ls.price.getD 0
      setup_valid := ls.setup_valid
      trigger_met := ls.trigger_met
      confidence := calculate_confidence ls.setup_valid ls.trigger_met
      ranking_score := none }

/-- Append step of the scan_symbols loop: `if signal: signals.append(signal)`. -/
def appendIfSome {β : Type} (acc : List β) (o : Option β) : List β :=
  match o with
  | some s => acc ++ [s]
  | none => acc

/-- DailyScanner.scan_symbols: nested loops over symbols and strategies,
appending only the non-None results of scan_symbol. -/
def scan_symbols (evalOf : String → String → EvalOutcome)
    (symbols strategies : List String) : List SignalResult :=
  symbols.foldl (fun signals symbol =>
    strategies.foldl (fun signals strategy =>
      appendIfSome signals (scan_symbol evalOf symbol strategy)) signals) []

/-- Evaluation environment of the C3 scenario: symbol AAA always raises,
every other symbol produces a BUY latest signal. -/
def c3eval : String → String → EvalOutcome := fun sym _ =>
  if sym == "AAA" then .raises "boom"
  else .latest { signal := "BUY", price := some 10, setup_valid := true, trigger_met := true }

/-! ## DailyScanner (scanner.py): pick-profile voting -/

/-- Outcome of one per-timeframe strategy run inside
_score_multi_timeframe_signal: an exception (caught, vote skipped), an empty
frame, a missing latest signal, or a vote with the fields read from the
latest signal. -/
inductive TFOutcome where
  | raises
  | emptyFrame
  | noLatest
  | vote (signal : String) (setup_valid trigger_met : Bool) (price : ℚ)
deriving Repr, DecidableEq

/-- Accumulators of the _score_multi_timeframe_signal loop. -/
structure ScoreAcc where
  weighted_score : ℚ
  weighted_setup : ℚ
  weighted_trigger : ℚ
  weighted_price : ℚ
deriving Repr, DecidableEq

/-- DailyScanner._build_term_weights: each timeframe's weight is its position
index plus 1 within the ordered list. -/
def build_term_weights (timeframes : List String) : List (String × ℚ) :=
  timeframes.enum.map (fun p => (p.2, (p.1 : ℚ) + 1))

/-- One iteration of the _score_multi_timeframe_signal loop: BUY adds the
weight to weighted_score and SELL subtracts it; setup_valid, trigger_met
with BUY, and positive price accumulate their own weighted totals. -/
def score_step (outcome : String → TFOutcome) (a : ScoreAcc) (wt : String × ℚ) : ScoreAcc :=
  match outcome wt.1 with
  | .raises => a
  | .emptyFrame => a
  | .noLatest => a
  | .vote sig sv tm price =>
    { weighted_score :=
        if sig == "BUY" then a.weighted_score + wt.2
        else if sig == "SELL" then a.weighted_score - wt.2
        else a.weighted_score
      weighted_setup := if sv then a.weighted_setup + wt.2 else a.weighted_setup
      weighted_trigger :=
        if tm && sig == "BUY" then a.weighted_trigger + wt.2 else a.weighted_trigger
      weighted_price := if price > 0 then a.weighted_price + wt.2 * price else a.weighted_price }

/-- Whole accumulation loop of _score_multi_timeframe_signal. -/
def score_loop (outcome : String → TFOutcome) (weights : List (String × ℚ)) : ScoreAcc :=
  weights.foldl (score_step outcome) ⟨0, 0, 0, 0⟩

/-- DailyScanner._score_multi_timeframe_signal: accumulate the weighted vote
over the profile's timeframes; discard the profile unless weighted_score is
positive; confidence is weighted_score over total weight clamped to
[0, 1]. -/
def score_multi_timeframe_signal (symbol : String) (outcome : String → TFOutcome)
    (timeframes : List String) : Option SignalResult :=
  let weights := build_term_weights timeframes
  let total_weight : ℚ := (weights.map Prod.snd).sum
  let acc := score_loop outcome weights
  if total_weight ≤ 0 then none
  else if acc.weighted_score ≤ 0 then none
  else some {
    symbol := symbol
    signal := "BUY"
    price := if acc.weighted_price > 0 then acc.weighted_price / total_weight else 0
    setup_valid := decide (acc.weighted_setup > 0)
    trigger_met := decide (acc.weighted_trigger > 0)
    confidence := min (max (acc.weighted_score / total_weight) 0) 1
    ranking_score := none }

/-- Per-timeframe contribution to weighted_score: +weight for a BUY vote,
−weight for a SELL vote, 0 otherwise. -/
def vote_contrib (outcome : String → TFOutcome) (wt : String × ℚ) : ℚ :=
  match outcome wt.1 with
  | .vote sig _ _ _ => if sig == "BUY" then wt.2 else if sig == "SELL" then -wt.2 else 0
  | _ => 0

/-- Votes of the C5 scenario: BUY on 1d, HOLD on 3d, BUY on 5d. -/
def c5buyOutcome : String → TFOutcome := fun tf =>
  if tf == "1d" then .vote "BUY" true true 10
  else if tf == "3d" then .vote "HOLD" true false 11
  else .vote "BUY" true true 12

/-- All-SELL votes of the C5 scenario. -/
def c5sellOutcome : String → TFOutcome := fun _ => .vote "SELL" false false 10

/-- Profile signal produced by the BUY/HOLD/BUY votes:
weighted_score 4 of total weight 6, confidence 2/3. -/
def c5result : SignalResult :=
  { symbol := "X", signal := "BUY", price := 34/3, setup_valid := true, trigger_met := true,
    confidence := 2/3, ranking_score := none }

/-! ## DailyScanner (scanner.py): rank_signals -/

/-- Composite ranking score of DailyScanner.rank_signals:
confidence + 0.15 if setup_valid + 0.15 if trigger_met + 0.10 if BUY
(the raw, uncapped value used as the sort key). -/
def ranking_score_raw (s : SignalResult) : ℚ :=
  s.confidence + (if s.setup_valid then 0.15 else 0) + (if s.trigger_met then 0.15 else 0) +
    (if s.signal == "BUY" then 0.10 else 0)

/-- Descending-by-score ordering used by the rank_signals sort. -/
def rank_rel (a b : SignalResult) : Prop := ranking_score_raw b ≤ ranking_score_raw a

instance : DecidableRel rank_rel :=
  fun a b => inferInstanceAs (Decidable (ranking_score_raw b ≤ ranking_score_raw a))

instance : IsTotal SignalResult rank_rel := ⟨fun _ _ => le_total _ _⟩

instance : IsTrans SignalResult rank_rel := ⟨fun _ _ _ h1 h2 => le_trans h2 h1⟩

/-- Selection loop of rank_signals: walk the sorted list, skip symbols
already seen (when unique_symbol), stop once top_k entries are kept
(append happens before the length check, mirroring the Python loop). -/
def pick_loop (unique_symbol : Bool) : ℕ → List String → List SignalResult → List SignalResult
  | _, _, [] => []
  | remaining, seen, s :: rest =>
    if unique_symbol && seen.contains s.symbol then pick_loop unique_symbol remaining seen rest
    else if remaining ≤ 1 then [s]
    else s :: pick_loop unique_symbol (remaining - 1) (s.symbol :: seen) rest

/-- DailyScanner.rank_signals: store min(score, 1.5) as ranking_score, sort
descending by score with a stable sort, deduplicate by symbol keeping the
first (highest-scoring) occurrence, truncate to top_k. -/
def rank_signals (signals : List SignalResult) (top_k : ℕ) (unique_symbol : Bool) :
    List SignalResult :=
  if signals.isEmpty then []
  else
    let scored := signals.map
      (fun s => { s with ranking_score := some (min (ranking_score_raw s) 1.5) })
    let sorted := List.insertionSort rank_rel scored
    pick_loop unique_symbol top_k [] sorted

/-- SignalResult A of the C6 scenario: confidence 0.6, all flags set, BUY. -/
def c6A : SignalResult :=
  { symbol := "A", signal := "BUY", price := 10, setup_valid := true, trigger_met := true,
    confidence := 0.6, ranking_score := none }

/-- SignalResult B of the C6 scenario: confidence 0.5, no flags, HOLD. -/
def c6B : SignalResult :=
  { symbol := "B", signal := "HOLD", price := 20, setup_valid := false, trigger_met := false,
    confidence := 0.5, ranking_score := none }

/-- Ranked copy of A: ranking_score 1.00. -/
def c6Ar : SignalResult := { c6A with ranking_score := some 1 }

/-- Ranked copy of B: ranking_score 0.50. -/
def c6Br : SignalResult := { c6B with ranking_score := some (1/2) }

/-! ## Strategy setup step (builder.py / technicals.py) -/

/-- polars rolling_mean with window_size = period as used by calculate_sma:
null until the window is full, then the arithmetic mean of the last
`period` values. -/
def rolling_mean (period : ℕ) (xs : List ℚ) : List (Option ℚ) :=
  (List.range xs.length).map (fun i =>
    if period ≤ i + 1 then some (((xs.take (i + 1)).drop (i + 1 - period)).sum / period)
    else none)

/-- calculate_sma of technicals.py applied to the close column. -/
def calculate_sma (period : ℕ) (closes : List ℚ) : List (Option ℚ) :=
  rolling_mean period closes

/-- polars null-propagating greater-than between two possibly-null cells. -/
def opt_gt (a b : Option ℚ) : Option Bool :=
  match a, b with
  | some x, some y => some (decide (y < x))
  | _, _ => none

/-- polars null-propagating less-than between two possibly-null cells. -/
def opt_lt (a b : Option ℚ) : Option Bool :=
  match a, b with
  | some x, some y => some (decide (x < y))
  | _, _ => none

/-- CompositeStrategy._setup_sma_trend: setup_valid column as a
null-propagating comparison of the fast and slow SMA columns (always true
for an unrecognized direction). -/
def setup_sma_trend (closes : List ℚ) (fast slow : ℕ) (direction : String) :
    List (Option Bool) :=
  let fcol := calculate_sma fast closes
  let scol := calculate_sma slow closes
  if direction == "ABOVE" then List.zipWith opt_gt fcol scol
  else if direction == "BELOW" then List.zipWith opt_lt fcol scol
  else closes.map (fun _ => some true)

/-! ## Candle-pattern triggers (builder.py / patterns.py) -/

/-- OHLC bar consumed by the pattern detectors (open is a Lean keyword, so
the open price field is open_). -/
structure Candle where
  open_ : ℚ
  high : ℚ
  low : ℚ
  close : ℚ
deriving Repr, DecidableEq

/-- polars shift(k) access: the candle k bars before row i, null at the
start of the frame. -/
def shifted (rows : List Candle) (k i : ℕ) : Option Candle :=
  if k ≤ i then rows[i - k]? else none

/-- Shifted open column cell. -/
def oOpen (rows : List Candle) (k i : ℕ) : Option ℚ := (shifted rows k i).map Candle.open_

/-- Shifted close column cell. -/
def oClose (rows : List Candle) (k i : ℕ) : Option ℚ := (shifted rows k i).map Candle.close

/-- polars three-valued (Kleene) boolean AND on possibly-null cells. -/
def kand : Option Bool → Option Bool → Option Bool
  | some false, _ => some false
  | _, some false => some false
  | some true, some true => some true
  | _, _ => none

/-- polars null-propagating less-or-equal. -/
def opt_le (a b : Option ℚ) : Option Bool :=
  match a, b with
  | some x, some y => some (decide (x ≤ y))
  | _, _ => none

/-- Mean of a possibly-null column, ignoring nulls (null when no values),
as polars Expr.mean. -/
def optMean (xs : List (Option ℚ)) : Option ℚ :=
  let vs := xs.filterMap id
  if vs.length = 0 then none else some (vs.sum / vs.length)

/-- detect_engulfing_bullish of patterns.py at row i:
previous bar bearish, current bullish, current open below previous close,
current close above previous open. -/
def engulfing_bullish (rows : List Candle) (i : ℕ) : Option Bool :=
  kand (kand (kand (opt_lt (oClose rows 1 i) (oOpen rows 1 i))
    (opt_gt (oClose rows 0 i) (oOpen rows 0 i)))
    (opt_lt (oOpen rows 0 i) (oClose rows 1 i)))
    (opt_gt (oClose rows 0 i) (oOpen rows 1 i))

/-- detect_engulfing_bearish of patterns.py at row i. -/
def engulfing_bearish (rows : List Candle) (i : ℕ) : Option Bool :=
  kand (kand (kand (opt_gt (oClose rows 1 i) (oOpen rows 1 i))
    (opt_lt (oClose rows 0 i) (oOpen rows 0 i)))
    (opt_gt (oOpen rows 0 i) (oClose rows 1 i)))
    (opt_lt (oClose rows 0 i) (oOpen rows 1 i))

/-- detect_hammer of patterns.py: small body, long lower shadow, small
upper shadow (row-local, never null on an existing row). -/
def hammer (rows : List Candle) (i : ℕ) : Option Bool :=
  (rows[i]?).map (fun c =>
    let body := |c.close - c.open_|
    let lower_shadow := min c.open_ c.close - c.low
    let upper_shadow := c.high - max c.open_ c.close
    let range_size := c.high - c.low
    decide (body ≤ range_size * 0.3) && decide (lower_shadow ≥ body * 2) &&
      decide (upper_shadow ≤ body * 0.5))

/-- detect_shooting_star of patterns.py: small body, long upper shadow,
small lower shadow. -/
def shooting_star (rows : List Candle) (i : ℕ) : Option Bool :=
  (rows[i]?).map (fun c =>
    let body := |c.close - c.open_|
    let upper_shadow := c.high - max c.open_ c.close
    let lower_shadow := min c.open_ c.close - c.low
    let range_size := c.high - c.low
    decide (body ≤ range_size * 0.3) && decide (upper_shadow ≥ body * 2) &&
      decide (lower_shadow ≤ body * 0.5))

/-- detect_doji of patterns.py with the default body threshold 0.1. -/
def doji (rows : List Candle) (i : ℕ) : Option Bool :=
  (rows[i]?).map (fun c => decide (|c.close - c.open_| ≤ (c.high - c.low) * 0.1))

/-- Body column of the bar one step back, used by the star patterns. -/
def second_body_col (rows : List Candle) : List (Option ℚ) :=
  (List.range rows.length).map (fun i => (shifted rows 1 i).map (fun p => |p.close - p.open_|))

/-- detect_morning_star of patterns.py at row i. -/
def morning_star (rows : List Candle) (i : ℕ) : Option Bool :=
  kand (kand (kand (kand (opt_lt (oClose rows 2 i) (oOpen rows 2 i))
    (opt_lt (oOpen rows 1 i) (oClose rows 2 i)))
    (opt_le ((shifted rows 1 i).map (fun p => |p.close - p.open_|))
      ((optMean (second_body_col rows)).map (· * 0.5))))
    (opt_gt (oClose rows 0 i) (oOpen rows 0 i)))
    (opt_gt (oClose rows 0 i) ((shifted rows 2 i).map (fun f => (f.open_ + f.close) / 2)))

/-- detect_evening_star of patterns.py at row i. -/
def evening_star (rows : List Candle) (i : ℕ) : Option Bool :=
  kand (kand (kand (kand (opt_gt (oClose rows 2 i) (oOpen rows 2 i))
    (opt_gt (oOpen rows 1 i) (oClose rows 2 i)))
    (opt_le ((shifted rows 1 i).map (fun p => |p.close - p.open_|))
      ((optMean (second_body_col rows)).map (· * 0.5))))
    (opt_lt (oClose rows 0 i) (oOpen rows 0 i)))
    (opt_lt (oClose rows 0 i) ((shifted rows 2 i).map (fun f => (f.open_ + f.close) / 2)))

/-- detect_green_candle of patterns.py: close above open. -/
def green_candle (rows : List Candle) (i : ℕ) : Option Bool :=
  (rows[i]?).map (fun c => decide (c.open_ < c.close))

/-- detect_red_candle of patterns.py: close below open. -/
def red_candle (rows : List Candle) (i : ℕ) : Option Bool :=
  (rows[i]?).map (fun c => decide (c.close < c.open_))

/-- Pattern names accepted by _trigger_candle_pattern_requirements (both
spellings of the engulfing patterns map to the same variant). -/
inductive CandlePattern where
  | BULLISH_ENGULFING
  | BEARISH_ENGULFING
  | HAMMER
  | SHOOTING_STAR
  | DOJI
  | MORNING_STAR
  | EVENING_STAR
  | GREEN_CANDLE
  | RED_CANDLE
deriving Repr, DecidableEq

/-- Condition column selected by _trigger_candle_pattern_requirements. -/
def pattern_condition (pattern : CandlePattern) (rows : List Candle) (i : ℕ) : Option Bool :=
  match pattern with
  | .BULLISH_ENGULFING => engulfing_bullish rows i
  | .BEARISH_ENGULFING => engulfing_bearish rows i
  | .HAMMER => hammer rows i
  | .SHOOTING_STAR => shooting_star rows i
  | .DOJI => doji rows i
  | .MORNING_STAR => morning_star rows i
  | .EVENING_STAR => evening_star rows i
  | .GREEN_CANDLE => green_candle rows i
  | .RED_CANDLE => red_candle rows i

/-- Signal emitted by _trigger_candle_pattern_requirements: BUY when the
pattern name contains BULLISH or is HAMMER, MORNING_STAR or GREEN_CANDLE,
SELL otherwise. -/
def pattern_signal_value (pattern : CandlePattern) : String :=
  match pattern with
  | .BULLISH_ENGULFING => "BUY"
  | .HAMMER => "BUY"
  | .MORNING_STAR => "BUY"
  | .GREEN_CANDLE => "BUY"
  | _ => "SELL"

/-- CompositeStrategy._trigger_candle_pattern_requirements: the setup mask
is the setup_valid column when present in the frame and defaults to a
constant true when the column is absent; the signal is emitted where
mask AND condition is true, else the initialized HOLD remains. -/
def trigger_candle_pattern_requirements (pattern : CandlePattern)
    (setup_col : Option (List (Option Bool))) (rows : List Candle) : List String :=
  (List.range rows.length).map (fun i =>
    let mask : Option Bool :=
      match setup_col with
      | none => some true
      | some col => (col[i]?).getD none
    match kand mask (pattern_condition pattern rows i) with
    | some true => pattern_signal_value pattern
    | _ => "HOLD")

/-- CompositeStrategy._trigger_candle_pattern (legacy pipeline): the setup
mask is always the setup_valid column; only the two engulfing patterns are
implemented (with their inline formulas), any other pattern leaves every
signal at HOLD. -/
def trigger_candle_pattern (pattern : String) (setup_col : List (Option Bool))
    (rows : List Candle) : List String :=
  (List.range rows.length).map (fun i =>
    let mask : Option Bool := (setup_col[i]?).getD none
    if pattern == "ENGULFING_BULLISH" then
      let cond := kand (kand (opt_lt (oOpen rows 0 i) (oClose rows 1 i))
        (opt_gt (oClose rows 0 i) (oOpen rows 1 i)))
        (opt_gt (oClose rows 0 i) (oOpen rows 0 i))
      match kand mask cond with
      | some true => "BUY"
      | _ => "HOLD"
    else if pattern == "ENGULFING_BEARISH" then
      let cond := kand (kand (opt_gt (oOpen rows 0 i) (oClose rows 1 i))
        (opt_lt (oClose rows 0 i) (oOpen rows 1 i)))
        (opt_lt (oClose rows 0 i) (oOpen rows 0 i))
      match kand mask cond with
      | some true => "SELL"
      | _ => "HOLD"
    else "HOLD")

/-! ## OHLCV resampling (inputs.py) -/

/-- One 1-day OHLCV bar (day = day number since epoch). -/
structure Bar where
  day : ℕ
  open_ : ℚ
  high : ℚ
  low : ℚ
  close : ℚ
  volume : ℚ
deriving Repr, DecidableEq

/-- Dynamic-window key of group_by_dynamic with every = N days: bars with
the same day / N fall into the same window. -/
def bucket_key (N : ℕ) (b : Bar) : ℕ := b.day / N

/-- Day ordering used by the sort in resample_ohlcv. -/
def barDayLE (a b : Bar) : Prop := a.day ≤ b.day

instance : DecidableRel barDayLE := fun a b => inferInstanceAs (Decidable (a.day ≤ b.day))

/-- polars Expr.max over a column: null on an empty group. -/
def list_max : List ℚ → Option ℚ
  | [] => none
  | x :: xs => some (xs.foldl max x)

/-- polars Expr.min over a column: null on an empty group. -/
def list_min : List ℚ → Option ℚ
  | [] => none
  | x :: xs => some (xs.foldl min x)

/-- One output row of resample_ohlcv (date = window start in days). -/
structure ResampledBar where
  date : ℕ
  open_ : Option ℚ
  high : Option ℚ
  low : Option ℚ
  close : Option ℚ
  volume : ℚ
deriving Repr, DecidableEq

/-- Window keys present in the sorted frame, in order of appearance. -/
def window_keys (N : ℕ) (sorted : List Bar) : List ℕ :=
  (sorted.map (bucket_key N)).dedup

/-- Aggregation of one window: open = first, high = max, low = min,
close = last, volume = sum, date labelled by the window start k·N. -/
def agg_bucket (N k : ℕ) (g : List Bar) : ResampledBar :=
  { date := k * N
    open_ := (g.map Bar.open_).head?
    high := list_max (g.map Bar.high)
    low := list_min (g.map Bar.low)
    close := (g.map Bar.close).getLast?
    volume := (g.map Bar.volume).sum }

/-- resample_ohlcv of inputs.py: sort the 1d bars by date, group them into
N-day dynamic windows, and aggregate each window with
first/max/min/last/sum. -/
def resample_ohlcv (N : ℕ) (bars : List Bar) : List ResampledBar :=
  let sorted := List.insertionSort barDayLE bars
  (window_keys N sorted).map (fun k =>
    agg_bucket N k (sorted.filter (fun b => bucket_key N b == k)))

/-- Bars of the C9 witness: three consecutive days resampled into 2-day
windows. -/
def c9b0 : Bar := { day := 0, open_ := 10, high := 15, low := 9, close := 12, volume := 100 }

/-- Second bar of the C9 witness. -/
def c9b1 : Bar := { day := 1, open_ := 12, high := 20, low := 11, close := 13, volume := 50 }

/-- Third bar of the C9 witness (alone in the second window). -/
def c9b2 : Bar := { day := 2, open_ := 13, high := 14, low := 13, close := 13, volume := 10 }

/-- Bar list of the C9 witness. -/
def c9bars : List Bar := [c9b0, c9b1, c9b2]

/-- First resampled row of the C9 witness: window of days 0-1. -/
def c9r0 : ResampledBar :=
  { date := 0, open_ := some 10, high := some 20, low := some 9, close := some 13,
    volume := 150 }

/-- Second resampled row of the C9 witness: window of day 2. -/
def c9r1 : ResampledBar :=
  { date := 2, open_ := some 13, high := some 14, low := some 13, close := some 13,
    volume := 10 }

/-! ## Theorems -/

theorem c1step0 : runStep c1bt c1ep c1init { date := 0, close := 100, signal := "BUY" } = c1acc0 := by
  simp [runStep, c1init, c1bt, c1ep, c1acc0, check_exit_conditions, slCond, tpCond, tsCond,
    timeCond, applySlippageEntry, applySlippageExit,
    -Bool.and_eq_true, -beq_iff_eq, -bne_iff_ne, -decide_eq_true_eq,
    show (("BUY":String) == "BUY") = true from rfl]

theorem c1step1 : runStep c1bt c1ep c1acc0 { date := 1, close := 94 } = c1acc1 := by
  simp [runStep, c1acc0, c1bt, c1ep, c1acc1, c1trade, check_exit_conditions, slCond, tpCond,
    tsCond, timeCond, applySlippageEntry, applySlippageExit, Position.close,
    -Bool.and_eq_true, -beq_iff_eq, -bne_iff_ne, -decide_eq_true_eq,
    show (100:ℚ) * (1 - 5/100) = 95 from by norm_num,
    show (((5:ℚ)/100 != 0)) = true from bne_iff_ne.mpr (by norm_num),
    show (((10:ℚ)/100 != 0)) = true from bne_iff_ne.mpr (by norm_num),
    show (100:ℚ) * (1 + 10/100) = 110 from by norm_num,
    show (94:ℚ) - 100 = -6 from by norm_num,
    show (-6:ℚ) * (10000 / 100) = -600 from by norm_num,
    show (10000:ℚ) + -600 = 9400 from by norm_num,
    show (94:ℚ) / 100 - 1 = -3/50 from by norm_num,
    show (decide ((94:ℚ) ≤ 95)) = true from rfl,
    show (decide ((110:ℚ) ≤ 94)) = false from rfl,
    show ((none : Option String) == some "SELL") = false from rfl,
    show (("HOLD":String) == "BUY") = false from rfl]

theorem c1step2 : runStep c1bt c1ep c1acc1 { date := 2, close := 111 } = c1acc2 := by
  simp [runStep, c1acc1, c1bt, c1ep, c1acc2, c1trade,
    -Bool.and_eq_true, -beq_iff_eq, -bne_iff_ne, -decide_eq_true_eq,
    show (("HOLD":String) == "BUY") = false from rfl]

theorem c1run_eval :
    Backtester.run c1bt c1ep c1data =
      { trades := [c1trade], final_capital := 9400,
        equity_curve := [10000, 10000, 9400, 9400, 9400], initial_capital := 10000 } := by
  have hs : List.insertionSort rowDateLE c1data =
      [{ date := 0, close := 100, signal := "BUY" }, { date := 1, close := 94 },
       { date := 2, close := 111 }] := by rfl
  simp only [Backtester.run, hs, List.foldl_cons, List.foldl_nil,
    show c1bt.initial_capital = (10000:ℚ) from rfl]
  rw [show ({ openPos := none, capital := (10000:ℚ), trades := [], equity := [10000] } : RunAcc)
        = c1init from rfl]
  rw [c1step0, c1step1, c1step2]
  simp [c1acc2, c1trade]

theorem c7step0 : runStep c7bt {} c7init { date := 0, close := 100, signal := "BUY" } = c7acc0 := by
  simp [runStep, c7init, c7bt, c7acc0, check_exit_conditions, slCond, tpCond, tsCond,
    timeCond, applySlippageEntry, applySlippageExit,
    -Bool.and_eq_true, -beq_iff_eq, -bne_iff_ne, -decide_eq_true_eq,
    show (("BUY":String) == "BUY") = true from rfl,
    show (10000:ℚ) - 1 = 9999 from by norm_num]

theorem c7step1 : runStep c7bt {} c7acc0 { date := 1, close := 100, exit_signal := some "SELL" } = c7acc1 := by
  simp [runStep, c7acc0, c7bt, c7acc1, c7trade, check_exit_conditions, slCond, tpCond, tsCond,
    timeCond, applySlippageEntry, applySlippageExit, Position.close,
    -Bool.and_eq_true, -beq_iff_eq, -bne_iff_ne, -decide_eq_true_eq,
    show (("HOLD":String) == "BUY") = false from rfl,
    show ((some "SELL" : Option String) == some "SELL") = true from rfl,
    show (100:ℚ) / 100 - 1 = 0 from by norm_num,
    show (9999:ℚ) - 2 = 9997 from by norm_num]

theorem c7run_eval :
    Backtester.run c7bt {} c7data =
      { trades := [c7trade], final_capital := 9997,
        equity_curve := [10000, 9999, 9997, 9997], initial_capital := 10000 } := by
  have hs : List.insertionSort rowDateLE c7data =
      [{ date := 0, close := 100, signal := "BUY" },
       { date := 1, close := 100, exit_signal := some "SELL" }] := by rfl
  simp only [Backtester.run, hs, List.foldl_cons, List.foldl_nil,
    show c7bt.initial_capital = (10000:ℚ) from rfl]
  rw [show ({ openPos := none, capital := (10000:ℚ), trades := [], equity := [10000] } : RunAcc)
        = c7init from rfl]
  rw [c7step0, c7step1]
  simp [c7acc1, c7trade]

/-- C7: for a round trip with flat commission c the code deducts c at entry
and then 2c more at exit (the exit line's comment claims it covers entry and
exit), so a closed trade costs 3c in commissions, not the 2c the
specification states.  In the scenario the price never moves, so the entire
capital change is commission: final capital is 9997 = 10000 − 3·c with
c = 1, not 10000 − 2·c = 9998. -/
theorem C7_commission_triple_charge :
    (Backtester.run c7bt {} c7data).final_capital = 9997 ∧
    (Backtester.run c7bt {} c7data).trades.map Position.exit_reason = [some "signal"] ∧
    (9997:ℚ) = 10000 - 3 * c7bt.commission ∧
    (9997:ℚ) ≠ 10000 - 2 * c7bt.commission := by
  refine ⟨by rw [c7run_eval], by rw [c7run_eval]; simp [c7trade], ?_, ?_⟩
  · show (9997:ℚ) = 10000 - 3 * 1
    norm_num
  · show (9997:ℚ) ≠ 10000 - 2 * 1
    norm_num

theorem runStep_trades_exit (bt : Backtester) (ep : ExitParams) (acc : RunAcc) (row : Row)
    (pos : Position) (reason : String)
    (hopen : acc.openPos = some pos)
    (hcheck : check_exit_conditions pos row.date row.close row ep = some reason) :
    (runStep bt ep acc row).trades =
      acc.trades ++ [Position.close pos row.date (applySlippageExit bt row.close) reason] := by
  simp only [runStep, hopen, hcheck]
  split_ifs <;> rfl

theorem runStep_trades_noexit (bt : Backtester) (ep : ExitParams) (acc : RunAcc) (row : Row)
    (h : ∀ pos, acc.openPos = some pos → check_exit_conditions pos row.date row.close row ep = none) :
    (runStep bt ep acc row).trades = acc.trades := by
  match hopen : acc.openPos with
  | none =>
    simp only [runStep, hopen]
    split_ifs <;> rfl
  | some pos =>
    simp only [runStep, hopen, h pos hopen]
    split_ifs <;> rfl

theorem runStep_trades_cases (bt : Backtester) (ep : ExitParams) (acc : RunAcc) (row : Row) :
    (runStep bt ep acc row).trades = acc.trades ∨
      ∃ pos reason, acc.openPos = some pos ∧
        check_exit_conditions pos row.date row.close row ep = some reason ∧
        (runStep bt ep acc row).trades =
          acc.trades ++ [Position.close pos row.date (applySlippageExit bt row.close) reason] := by
  match hopen : acc.openPos with
  | none => exact Or.inl (runStep_trades_noexit bt ep acc row (by simp [hopen]))
  | some pos =>
    match hcheck : check_exit_conditions pos row.date row.close row ep with
    | none =>
      refine Or.inl (runStep_trades_noexit bt ep acc row ?_)
      intro q hq
      rw [hopen] at hq
      cases hq
      exact hcheck
    | some reason =>
      exact Or.inr ⟨pos, reason, rfl, hcheck,
        runStep_trades_exit bt ep acc row pos reason hopen hcheck⟩

theorem tsCond_eq_false (ep : ExitParams) (price ts : ℚ)
    (h : ep.trailing_stop_pct = some ts) (h0 : 0 < ts) (hp : 0 < price) :
    tsCond ep price = false := by
  have hlt : price * (1 - ts) < price := by nlinarith
  have : ¬ (price < price * (1 - ts)) := not_lt.mpr (le_of_lt hlt)
  simp [tsCond, h, this]

theorem check_exit_ne_trailing (ep : ExitParams) (pos : Position) (d : Int) (price : ℚ)
    (row : Row) (ts : ℚ)
    (h : ep.trailing_stop_pct = some ts) (h0 : 0 < ts) (hp : 0 < price) :
    check_exit_conditions pos d price row ep ≠ some "trailing_stop" := by
  have hts := tsCond_eq_false ep price ts h h0 hp
  unfold check_exit_conditions
  split_ifs with h1 h2 h3 h4 h5 <;> simp_all

theorem foldl_no_trailing (bt : Backtester) (ep : ExitParams) (ts : ℚ)
    (hts : ep.trailing_stop_pct = some ts) (h0 : 0 < ts) (rows : List Row) :
    ∀ (acc : RunAcc), (∀ r ∈ rows, 0 < r.close) →
      (∀ q ∈ acc.trades, q.exit_reason ≠ some "trailing_stop") →
      ∀ q ∈ (rows.foldl (runStep bt ep) acc).trades, q.exit_reason ≠ some "trailing_stop" := by
  induction rows with
  | nil => intro acc _ hacc; exact hacc
  | cons r rest ih =>
    intro acc hrows hacc
    simp only [List.foldl_cons]
    apply ih (runStep bt ep acc r) (fun x hx => hrows x (List.mem_cons_of_mem _ hx))
    rcases runStep_trades_cases bt ep acc r with hsame | ⟨pos, reason, _, hcheck, happ⟩
    · rw [hsame]; exact hacc
    · rw [happ]
      intro q hq
      rcases List.mem_append.mp hq with h1 | h2
      · exact hacc q h1
      · have hq2 : q = Position.close pos r.date (applySlippageExit bt r.close) reason :=
          List.mem_singleton.mp h2
        subst hq2
        have hne : check_exit_conditions pos r.date r.close r ep ≠ some "trailing_stop" :=
          check_exit_ne_trailing ep pos r.date r.close r ts hts h0
            (hrows r (List.mem_cons_self r rest))
        rw [hcheck] at hne
        simp only [Position.close]
        intro hcontra
        apply hne
        simpa using hcontra

/-- C10: with a positive trailing-stop fraction and positive bar closes, the
simplified trailing-stop test (close < close × (1 − pct)) can never fire, so
no trade in the ledger of a run carries exit_reason trailing_stop. -/
theorem C10_no_trailing_stop_exits (bt : Backtester) (ep : ExitParams) (data : List Row)
    (ts : ℚ) (hts : ep.trailing_stop_pct = some ts) (hts0 : 0 < ts) (_hts1 : ts ≤ 1)
    (hpos : ∀ r ∈ data, 0 < r.close)
    (p : Position) (hp : p ∈ (Backtester.run bt ep data).trades) :
    p.exit_reason ≠ some "trailing_stop" := by
  have hperm := List.perm_insertionSort rowDateLE data
  have hrows : ∀ r ∈ List.insertionSort rowDateLE data, 0 < r.close :=
    fun r hr => hpos r (hperm.mem_iff.mp hr)
  have hfold := foldl_no_trailing bt ep ts hts hts0 (List.insertionSort rowDateLE data)
    { openPos := none, capital := bt.initial_capital, trades := [],
      equity := [bt.initial_capital] } hrows (by simp)
  revert hp
  simp only [Backtester.run]
  split
  · intro hp
    rcases List.mem_append.mp hp with h1 | h2
    · exact hfold p h1
    · have h3 := List.mem_singleton.mp h2
      subst h3
      simp [Position.close]
  · intro hp
    exact hfold p hp

theorem c10step0 : runStep c1bt c10ep c10init { date := 0, close := 50, signal := "BUY" } = c10acc0 := by
  simp [runStep, c10init, c1bt, c10ep, c10acc0, check_exit_conditions, slCond, tpCond, tsCond,
    timeCond, applySlippageEntry, applySlippageExit,
    -Bool.and_eq_true, -beq_iff_eq, -bne_iff_ne, -decide_eq_true_eq,
    show (("BUY":String) == "BUY") = true from rfl]

theorem c10run_eval :
    Backtester.run c1bt c10ep c10data =
      { trades := [c10trade], final_capital := 10000,
        equity_curve := [10000, 10000, 10000], initial_capital := 10000 } := by
  have hs : List.insertionSort rowDateLE c10data =
      [{ date := 0, close := 50, signal := "BUY" }] := by rfl
  simp only [Backtester.run, hs, List.foldl_cons, List.foldl_nil,
    show c1bt.initial_capital = (10000:ℚ) from rfl]
  rw [show ({ openPos := none, capital := (10000:ℚ), trades := [], equity := [10000] } : RunAcc)
        = c10init from rfl]
  rw [c10step0]
  simp [c10acc0, c10trade, c1bt, applySlippageExit, Position.close,
    show (50:ℚ) / 50 - 1 = 0 from by norm_num]

/-- C10 witness: a concrete run (one BUY bar at $50, trailing_stop_pct 1/2)
whose single force-closed trade indeed does not carry the trailing_stop
reason. -/
theorem C10_no_trailing_stop_exits_witness :
    c10ep.trailing_stop_pct = some (1/2) ∧ (0:ℚ) < 1/2 ∧ ((1:ℚ)/2 ≤ 1) ∧
    c10trade.exit_reason ≠ some "trailing_stop" := by
  refine ⟨rfl, by norm_num, by norm_num, ?_⟩
  refine C10_no_trailing_stop_exits c1bt c10ep c10data (1/2) rfl (by norm_num) (by norm_num)
    ?_ c10trade ?_
  · intro r hr
    simp only [c10data, List.mem_singleton] at hr
    subst hr
    norm_num
  · rw [c10run_eval]
    exact List.mem_singleton_self _

/-- C1 counterexample: for entry at $100 with stop_loss_pct = 0.05 and
take_profit_pct = 0.10, on the path 100 → 94 → 111 the position is closed by
the stop loss at the triggering bar's close $94 (exit_reason stop_loss), not
at the stop level $95 the claim states. -/
theorem C1_counterexample :
    (Backtester.run c1bt c1ep c1data).trades.map Position.exit_price = [some 94] ∧
    (Backtester.run c1bt c1ep c1data).trades.map Position.exit_reason = [some "stop_loss"] ∧
    (some (94:ℚ) ≠ some (95:ℚ)) := by
  refine ⟨?_, ?_, by norm_num⟩
  · rw [c1run_eval]; simp [c1trade]
  · rw [c1run_eval]; simp [c1trade]

/-- C1 (amended): exit conditions are evaluated in the fixed precedence
order stop-loss, take-profit, trailing-stop, max-holding-days, strategy
exit_signal = SELL; the first satisfied condition closes the position that
bar with its exit_reason recorded, at the bar's (slippage-adjusted) close.
In particular, for entry at $100 with stop_loss_pct 0.05 and take_profit_pct
0.10, the path touching $94 before $111 closes at that bar's close $94 with
exit_reason stop_loss, not take_profit. -/
theorem C1_exit_precedence :
    (∀ (ep : ExitParams) (pos : Position) (d : Int) (price : ℚ) (row : Row),
      (slCond ep pos.entry_price price = true →
        check_exit_conditions pos d price row ep = some "stop_loss") ∧
      (slCond ep pos.entry_price price = false →
        tpCond ep pos.entry_price price = true →
        check_exit_conditions pos d price row ep = some "take_profit") ∧
      (slCond ep pos.entry_price price = false →
        tpCond ep pos.entry_price price = false →
        tsCond ep price = true →
        check_exit_conditions pos d price row ep = some "trailing_stop") ∧
      (slCond ep pos.entry_price price = false →
        tpCond ep pos.entry_price price = false →
        tsCond ep price = false →
        timeCond ep pos.entry_date d = true →
        check_exit_conditions pos d price row ep = some "time_based") ∧
      (slCond ep pos.entry_price price = false →
        tpCond ep pos.entry_price price = false →
        tsCond ep price = false →
        timeCond ep pos.entry_date d = false →
        row.exit_signal = some "SELL" →
        check_exit_conditions pos d price row ep = some "signal") ∧
      (slCond ep pos.entry_price price = false →
        tpCond ep pos.entry_price price = false →
        tsCond ep price = false →
        timeCond ep pos.entry_date d = false →
        row.exit_signal ≠ some "SELL" →
        check_exit_conditions pos d price row ep = none)) ∧
    (∀ (bt : Backtester) (ep : ExitParams) (acc : RunAcc) (row : Row) (pos : Position)
        (reason : String),
      acc.openPos = some pos →
      check_exit_conditions pos row.date row.close row ep = some reason →
      (runStep bt ep acc row).trades =
        acc.trades ++ [Position.close pos row.date (applySlippageExit bt row.close) reason]) ∧
    (Backtester.run c1bt c1ep c1data).trades = [c1trade] := by
  refine ⟨?_, runStep_trades_exit, by rw [c1run_eval]⟩
  intro ep pos d price row
  refine ⟨?_, ?_, ?_, ?_, ?_, ?_⟩
  · intro h1; simp [check_exit_conditions, h1]
  · intro h1 h2; simp [check_exit_conditions, h1, h2]
  · intro h1 h2 h3; simp [check_exit_conditions, h1, h2, h3]
  · intro h1 h2 h3 h4; simp [check_exit_conditions, h1, h2, h3, h4]
  · intro h1 h2 h3 h4 h5
    simp [check_exit_conditions, h1, h2, h3, h4, h5]
  · intro h1 h2 h3 h4 h5
    simp [check_exit_conditions, h1, h2, h3, h4, beq_eq_false_iff_ne.mpr h5]

/-- C1 witness: the stop-loss guard holds at entry $100, close $94 with
stop_loss_pct 0.05, and the precedence theorem then yields exit reason
stop_loss. -/
theorem C1_exit_precedence_witness :
    slCond c1ep (100:ℚ) 94 = true ∧
    check_exit_conditions { entry_date := 0, entry_price := 100 } 1 94
      { date := 1, close := 94 } c1ep = some "stop_loss" := by
  have hsl : slCond c1ep (100:ℚ) 94 = true := by
    simp [slCond, c1ep, -bne_iff_ne, -decide_eq_true_eq,
      show (100:ℚ) * (1 - 5/100) = 95 from by norm_num,
      show (((5:ℚ)/100 != 0)) = true from bne_iff_ne.mpr (by norm_num),
      show (decide ((94:ℚ) ≤ 95)) = true from rfl]
  exact ⟨hsl,
    (C1_exit_precedence.1 c1ep { entry_date := 0, entry_price := 100 } 1 94
      { date := 1, close := 94 }).1 hsl⟩

theorem asofPick_foldl (d : Int) {α : Type} (higher : List (HRow α)) :
    ∀ acc : Option (HRow α),
      higher.foldl (fun acc h => if h.date ≤ d then some h else acc) acc =
        Option.or ((higher.filter (fun h => decide (h.date ≤ d))).getLast?) acc := by
  induction higher with
  | nil => intro acc; rfl
  | cons h t ih =>
    intro acc
    by_cases hd : h.date ≤ d
    · have hf : List.filter (fun x => decide (x.date ≤ d)) (h :: t) =
          h :: List.filter (fun x => decide (x.date ≤ d)) t := by
        simp [List.filter_cons, hd]
      rw [List.foldl_cons, if_pos hd, ih (some h), hf]
      cases hfil : List.filter (fun x => decide (x.date ≤ d)) t with
      | nil => rfl
      | cons y ys =>
        have hne : (y :: ys) ≠ ([] : List (HRow α)) := by simp
        have hlast : (y :: ys).getLast? = some ((y :: ys).getLast hne) :=
          List.getLast?_eq_getLast_of_ne_nil hne
        show Option.or ((y :: ys).getLast?) (some h) = Option.or ((y :: ys).getLast?) acc
        rw [hlast]
        rfl
    · have hf : List.filter (fun x => decide (x.date ≤ d)) (h :: t) =
          List.filter (fun x => decide (x.date ≤ d)) t := by
        simp [List.filter_cons, hd]
      rw [List.foldl_cons, if_neg hd, ih acc, hf]

theorem asofPick_eq_getLast_filter {α : Type} (higher : List (HRow α)) (d : Int) :
    asofPick higher d = (higher.filter (fun h => decide (h.date ≤ d))).getLast? := by
  unfold asofPick
  rw [asofPick_foldl]
  cases (higher.filter (fun h => decide (h.date ≤ d))).getLast? <;> rfl

theorem sorted_getLast_max {α : Type} :
    ∀ {l : List (HRow α)}, List.Pairwise (fun a b : HRow α => a.date ≤ b.date) l →
      ∀ {x : HRow α}, l.getLast? = some x → ∀ y ∈ l, y.date ≤ x.date := by
  intro l
  induction l with
  | nil => intro _ x hx; simp at hx
  | cons a t ih =>
    intro hs x hx y hy
    cases t with
    | nil =>
      have hxa : a = x := by simpa using hx
      have hya : y = a := by simpa using hy
      subst hxa; subst hya
      exact le_refl _
    | cons b t2 =>
      have hx2 : (b :: t2).getLast? = some x := hx
      have hpair := List.pairwise_cons.mp hs
      rcases List.mem_cons.mp hy with rfl | hy2
      · exact hpair.1 x (List.mem_of_mem_getLast? hx2)
      · exact ih hpair.2 hx2 y hy2

/-- C2: for every column merged by the backward asof join of
align_timeframe_signals and every base bar, the attached value is the value
of the most recent higher-timeframe row dated on or before the base bar's
date (and is null when no such row exists); the merge never attaches a
higher-timeframe value dated strictly after the base bar. -/
theorem C2_asof_no_lookahead {α : Type} (base_dates : List Int) (higher : List (HRow α))
    (hs : List.Pairwise (fun a b : HRow α => a.date ≤ b.date) higher)
    (p : Int × Option α) (hp : p ∈ align_timeframe_signals base_dates higher) :
    (∀ v, p.2 = some v → ∃ h, h ∈ higher ∧ h.date ≤ p.1 ∧ h.val = v ∧
      ∀ h2 ∈ higher, h2.date ≤ p.1 → h2.date ≤ h.date) ∧
    (p.2 = none → ∀ h ∈ higher, ¬ (h.date ≤ p.1)) := by
  rcases List.mem_map.mp hp with ⟨d, hd, rfl⟩
  have hpick := asofPick_eq_getLast_filter higher d
  constructor
  · intro v hv
    simp only at hv
    rcases Option.map_eq_some'.mp hv with ⟨h, hsome, hval⟩
    rw [hpick] at hsome
    have hmem_f : h ∈ higher.filter (fun x => decide (x.date ≤ d)) :=
      List.mem_of_mem_getLast? hsome
    have hmem : h ∈ higher := (List.mem_filter.mp hmem_f).1
    have hle : h.date ≤ d := by simpa using (List.mem_filter.mp hmem_f).2
    refine ⟨h, hmem, hle, hval, ?_⟩
    intro h2 hh2 hle2
    have hf2 : h2 ∈ higher.filter (fun x => decide (x.date ≤ d)) :=
      List.mem_filter.mpr ⟨hh2, by simpa using hle2⟩
    have hsorted_f : List.Pairwise (fun a b : HRow α => a.date ≤ b.date)
        (higher.filter (fun x => decide (x.date ≤ d))) :=
      List.Pairwise.sublist (List.filter_sublist higher) hs
    exact sorted_getLast_max hsorted_f hsome h2 hf2
  · intro hnone h hh hle
    simp only at hnone
    rw [Option.map_eq_none'] at hnone
    rw [hpick] at hnone
    have hfil : higher.filter (fun x => decide (x.date ≤ d)) = [] := by
      simpa using hnone
    have : h ∈ higher.filter (fun x => decide (x.date ≤ d)) :=
      List.mem_filter.mpr ⟨hh, by simpa using hle⟩
    rw [hfil] at this
    simp at this

/-- C2 witness: base dates 0, 5, 10 against a sorted higher-timeframe frame
with rows at days 2 and 7; the base bar at day 5 receives the value 20 of
the day-2 row. -/
theorem C2_asof_no_lookahead_witness :
    List.Pairwise (fun a b : HRow Int => a.date ≤ b.date) c2higher ∧
    ((∀ v, (some (20:Int)) = some v → ∃ h, h ∈ c2higher ∧ h.date ≤ (5:Int) ∧ h.val = v ∧
        ∀ h2 ∈ c2higher, h2.date ≤ (5:Int) → h2.date ≤ h.date) ∧
      ((some (20:Int)) = none → ∀ h ∈ c2higher, ¬ (h.date ≤ (5:Int)))) := by
  have hs : List.Pairwise (fun a b : HRow Int => a.date ≤ b.date) c2higher := by decide
  have hp : (((5:Int), some (20:Int)) : Int × Option Int) ∈
      align_timeframe_signals [0, 5, 10] c2higher := by decide
  exact ⟨hs, C2_asof_no_lookahead [0, 5, 10] c2higher hs ((5:Int), some (20:Int)) hp⟩

theorem foldl_append_filterMap {β : Type} (g : String → Option β) (l : List String) :
    ∀ acc : List β,
      l.foldl (fun acc x => appendIfSome acc (g x)) acc = acc ++ l.filterMap g := by
  induction l with
  | nil => intro acc; simp
  | cons x t ih =>
    intro acc
    simp only [List.foldl_cons]
    cases hg : g x with
    | some s =>
      rw [show appendIfSome acc (some s) = acc ++ [s] from rfl, ih (acc ++ [s])]
      simp [List.filterMap_cons, hg]
    | none =>
      rw [show appendIfSome acc (none : Option β) = acc from rfl, ih acc]
      simp [List.filterMap_cons, hg]

theorem foldl_append_bind {β : Type} (f : String → List β) (l : List String) :
    ∀ acc : List β, l.foldl (fun acc x => acc ++ f x) acc = acc ++ l.flatMap f := by
  induction l with
  | nil => intro acc; simp
  | cons x t ih =>
    intro acc
    simp only [List.foldl_cons]
    rw [ih (acc ++ f x)]
    simp [List.flatMap_cons]

/-- C3 (amended): a batch scan is never aborted by one symbol's evaluation
error — the output is exactly the concatenation, over all (symbol, strategy)
pairs in order, of the per-pair successful results — but a pair whose
evaluation raises contributes nothing at all to the output: the error is
swallowed (only printed) and the failed symbol is simply absent, not
reported as a failure entry. -/
theorem C3_batch_isolation :
    (∀ (evalOf : String → String → EvalOutcome) (symbols strategies : List String),
      scan_symbols evalOf symbols strategies =
        symbols.flatMap (fun sym => strategies.filterMap (fun st => scan_symbol evalOf sym st))) ∧
    (∀ (evalOf : String → String → EvalOutcome) (sym st msg : String),
      evalOf sym st = EvalOutcome.raises msg → scan_symbol evalOf sym st = none) := by
  constructor
  · intro evalOf symbols strategies
    unfold scan_symbols
    have hinner : ∀ (sym : String) (acc : List SignalResult),
        strategies.foldl (fun signals strategy =>
          appendIfSome signals (scan_symbol evalOf sym strategy)) acc =
          acc ++ strategies.filterMap (fun st => scan_symbol evalOf sym st) :=
      fun sym acc => foldl_append_filterMap (fun st => scan_symbol evalOf sym st) strategies acc
    calc symbols.foldl (fun signals symbol =>
          strategies.foldl (fun signals strategy =>
            appendIfSome signals (scan_symbol evalOf symbol strategy)) signals) []
        = symbols.foldl (fun signals symbol =>
            signals ++ strategies.filterMap (fun st => scan_symbol evalOf symbol st)) [] := by
          congr 1
          funext signals symbol
          exact hinner symbol signals
      _ = [] ++ symbols.flatMap
            (fun sym => strategies.filterMap (fun st => scan_symbol evalOf sym st)) :=
          foldl_append_bind _ symbols []
      _ = symbols.flatMap (fun sym => strategies.filterMap (fun st => scan_symbol evalOf sym st)) :=
          List.nil_append _
  · intro evalOf sym st msg h
    unfold scan_symbol
    rw [h]

/-- C3 witness: in the concrete environment where AAA raises, scan_symbol
returns None for AAA. -/
theorem C3_batch_isolation_witness :
    c3eval "AAA" "s" = EvalOutcome.raises "boom" ∧ scan_symbol c3eval "AAA" "s" = none := by
  have h : c3eval "AAA" "s" = EvalOutcome.raises "boom" := rfl
  exact ⟨h, C3_batch_isolation.2 c3eval "AAA" "s" "boom" h⟩

/-- C3 counterexample: scanning symbols AAA (which raises) and BBB with one
strategy yields exactly one result, for BBB; the failed symbol AAA appears
nowhere in the result set, contradicting the claim that every failed symbol
appears as an explicit failure entry. -/
theorem C3_counterexample :
    scan_symbols c3eval ["AAA", "BBB"] ["s"] =
      [{ symbol := "BBB", signal := "BUY", price := 10, setup_valid := true,
         trigger_met := true, confidence := 1, ranking_score := none }] ∧
    "BBB" ≠ "AAA" := by
  constructor
  · simp [scan_symbols, scan_symbol, appendIfSome, c3eval, calculate_confidence,
      -Bool.and_eq_true, -beq_iff_eq, -bne_iff_ne, -decide_eq_true_eq,
      show (("AAA":String) == "AAA") = true from rfl,
      show (("BBB":String) == "AAA") = false from rfl,
      show (("BUY":String) == "HOLD") = false from rfl,
      show (0.5:ℚ) + 0.2 + 0.3 = 1 from by norm_num]
  · decide

theorem score_loop_weighted_score (outcome : String → TFOutcome) (l : List (String × ℚ)) :
    ∀ a : ScoreAcc,
      (l.foldl (score_step outcome) a).weighted_score =
        a.weighted_score + (l.map (vote_contrib outcome)).sum := by
  induction l with
  | nil => intro a; simp
  | cons w t ih =>
    intro a
    simp only [List.foldl_cons, List.map_cons, List.sum_cons]
    rw [ih (score_step outcome a w)]
    have hstep : (score_step outcome a w).weighted_score =
        a.weighted_score + vote_contrib outcome w := by
      unfold score_step vote_contrib
      cases outcome w.1 with
      | raises => simp
      | emptyFrame => simp
      | noLatest => simp
      | vote sig sv tm price =>
        by_cases hbuy : sig == "BUY"
        · simp [hbuy]
        · by_cases hsell : sig == "SELL"
          · simp [hbuy, hsell, sub_eq_add_neg]
          · simp [hbuy, hsell]
    rw [hstep]
    ring

theorem c5buy_eval :
    score_multi_timeframe_signal "X" c5buyOutcome ["1d", "3d", "5d"] = some c5result := by
  have hw : build_term_weights ["1d", "3d", "5d"] = [("1d", 1), ("3d", 2), ("5d", 3)] := by
    simp [build_term_weights, List.enum]
    norm_num
  simp only [score_multi_timeframe_signal, hw, score_loop, List.foldl_cons, List.foldl_nil]
  simp [score_step, c5buyOutcome, c5result,
    -Bool.and_eq_true, -beq_iff_eq, -bne_iff_ne, -decide_eq_true_eq,
    show (("1d":String) == "1d") = true from rfl,
    show (("3d":String) == "1d") = false from rfl,
    show (("3d":String) == "3d") = true from rfl,
    show (("5d":String) == "1d") = false from rfl,
    show (("5d":String) == "3d") = false from rfl,
    show (("BUY":String) == "BUY") = true from rfl,
    show (("HOLD":String) == "BUY") = false from rfl,
    show (("HOLD":String) == "SELL") = false from rfl,
    show ((1:ℚ) + 3 = 4) from by norm_num,
    show ((1:ℚ) + 2 = 3) from by norm_num,
    show ((3:ℚ) + 3 = 6) from by norm_num,
    show ((2:ℚ) + 3 = 5) from by norm_num,
    show ((1:ℚ) + 5 = 6) from by norm_num,
    show ((2:ℚ) * 11 = 22) from by norm_num,
    show ((10:ℚ) + 22 = 32) from by norm_num,
    show ((3:ℚ) * 12 = 36) from by norm_num,
    show ((32:ℚ) + 36 = 68) from by norm_num,
    show ((68:ℚ) / 6 = 34/3) from by norm_num,
    show ((4:ℚ) / 6 = 2/3) from by norm_num,
    show max ((2:ℚ)/3) 0 = 2/3 from by norm_num,
    show min ((2:ℚ)/3) 1 = 2/3 from by norm_num]

theorem c5sell_eval :
    score_multi_timeframe_signal "X" c5sellOutcome ["1d", "3d", "5d"] = none := by
  have hw : build_term_weights ["1d", "3d", "5d"] = [("1d", 1), ("3d", 2), ("5d", 3)] := by
    simp [build_term_weights, List.enum]
    norm_num
  simp only [score_multi_timeframe_signal, hw, score_loop, List.foldl_cons, List.foldl_nil]
  simp [score_step, c5sellOutcome,
    -Bool.and_eq_true, -beq_iff_eq, -bne_iff_ne, -decide_eq_true_eq,
    show (("SELL":String) == "BUY") = false from rfl,
    show (("SELL":String) == "SELL") = true from rfl,
    show ((0:ℚ) - 1 = -1) from by norm_num,
    show ((-1:ℚ) - 2 = -3) from by norm_num,
    show ((-3:ℚ) - 3 = -6) from by norm_num,
    show ((2:ℚ) + 3 = 5) from by norm_num,
    show ((1:ℚ) + 5 = 6) from by norm_num,
    show ((2:ℚ) * 10 = 20) from by norm_num,
    show ((10:ℚ) + 20 = 30) from by norm_num,
    show ((3:ℚ) * 10 = 30) from by norm_num,
    show ((30:ℚ) + 30 = 60) from by norm_num]

/-- C5: rank-based weights are position index + 1; weighted_score is the sum
of +weight per BUY vote and −weight per SELL vote; a profile yields a result
only if weighted_score > 0, with confidence clamp(weighted_score /
total_weight, 0, 1); the BUY,HOLD,BUY example over [1d,3d,5d] gives
weights [1,2,3], weighted_score 4, total weight 6, confidence 2/3 and is
retained, while an all-SELL profile is discarded. -/
theorem C5_pick_profile_vote :
    (∀ (timeframes : List String) (i : ℕ),
      (build_term_weights timeframes)[i]? =
        timeframes[i]?.map (fun tf => (tf, (i : ℚ) + 1))) ∧
    (∀ (outcome : String → TFOutcome) (weights : List (String × ℚ)),
      (score_loop outcome weights).weighted_score =
        (weights.map (vote_contrib outcome)).sum) ∧
    (∀ (symbol : String) (outcome : String → TFOutcome) (timeframes : List String)
        (r : SignalResult),
      score_multi_timeframe_signal symbol outcome timeframes = some r →
      0 < (score_loop outcome (build_term_weights timeframes)).weighted_score ∧
      r.confidence =
        min (max ((score_loop outcome (build_term_weights timeframes)).weighted_score /
          ((build_term_weights timeframes).map Prod.snd).sum) 0) 1) ∧
    (∀ (symbol : String) (outcome : String → TFOutcome) (timeframes : List String),
      (score_loop outcome (build_term_weights timeframes)).weighted_score ≤ 0 →
      score_multi_timeframe_signal symbol outcome timeframes = none) ∧
    ((score_loop c5buyOutcome (build_term_weights ["1d", "3d", "5d"])).weighted_score = 4 ∧
      ((build_term_weights ["1d", "3d", "5d"]).map Prod.snd).sum = 6 ∧
      score_multi_timeframe_signal "X" c5buyOutcome ["1d", "3d", "5d"] = some c5result) ∧
    score_multi_timeframe_signal "X" c5sellOutcome ["1d", "3d", "5d"] = none := by
  refine ⟨?_, ?_, ?_, ?_, ⟨?_, ?_, c5buy_eval⟩, c5sell_eval⟩
  · intro timeframes i
    simp only [build_term_weights, List.getElem?_map, List.getElem?_enum]
    cases timeframes[i]? <;> rfl
  · intro outcome weights
    unfold score_loop
    rw [score_loop_weighted_score]
    simp
  · intro symbol outcome timeframes r h
    simp only [score_multi_timeframe_signal] at h
    split_ifs at h with h1 h2 h3
    · obtain rfl := Option.some.inj h
      exact ⟨not_le.mp h2, rfl⟩
    · obtain rfl := Option.some.inj h
      exact ⟨not_le.mp h2, rfl⟩
  · intro symbol outcome timeframes h
    simp only [score_multi_timeframe_signal]
    split_ifs
    all_goals rfl
  · have hw : build_term_weights ["1d", "3d", "5d"] = [("1d", 1), ("3d", 2), ("5d", 3)] := by
      simp [build_term_weights, List.enum]
      norm_num
    rw [hw]
    simp only [score_loop, List.foldl_cons, List.foldl_nil]
    simp [score_step, c5buyOutcome,
      -Bool.and_eq_true, -beq_iff_eq, -bne_iff_ne, -decide_eq_true_eq,
      show (("1d":String) == "1d") = true from rfl,
      show (("3d":String) == "1d") = false from rfl,
      show (("3d":String) == "3d") = true from rfl,
      show (("5d":String) == "1d") = false from rfl,
      show (("5d":String) == "3d") = false from rfl,
      show (("BUY":String) == "BUY") = true from rfl,
      show (("HOLD":String) == "BUY") = false from rfl,
      show (("HOLD":String) == "SELL") = false from rfl,
      show ((1:ℚ) + 3 = 4) from by norm_num]
  · have hw : build_term_weights ["1d", "3d", "5d"] = [("1d", 1), ("3d", 2), ("5d", 3)] := by
      simp [build_term_weights, List.enum]
      norm_num
    rw [hw]
    norm_num

/-- C5 witness: the retention/confidence law applied at the concrete
BUY,HOLD,BUY profile, whose weighted score 4 is positive and whose
confidence is 2/3. -/
theorem C5_pick_profile_vote_witness :
    score_multi_timeframe_signal "X" c5buyOutcome ["1d", "3d", "5d"] = some c5result ∧
    (0 < (score_loop c5buyOutcome (build_term_weights ["1d", "3d", "5d"])).weighted_score ∧
      c5result.confidence =
        min (max ((score_loop c5buyOutcome (build_term_weights ["1d", "3d", "5d"])).weighted_score /
          ((build_term_weights ["1d", "3d", "5d"]).map Prod.snd).sum) 0) 1) :=
  ⟨c5buy_eval,
    C5_pick_profile_vote.2.2.1 "X" c5buyOutcome ["1d", "3d", "5d"] c5result c5buy_eval⟩

theorem pick_loop_sublist (uniq : Bool) :
    ∀ (l : List SignalResult) (remaining : ℕ) (seen : List String),
      List.Sublist (pick_loop uniq remaining seen l) l := by
  intro l
  induction l with
  | nil => intro remaining seen; simp [pick_loop]
  | cons s rest ih =>
    intro remaining seen
    simp only [pick_loop]
    split_ifs with h1 h2
    · exact List.Sublist.cons s (ih remaining seen)
    · exact (List.nil_sublist rest).cons₂ s
    · exact (ih (remaining - 1) (s.symbol :: seen)).cons₂ s

theorem pick_loop_not_seen :
    ∀ (l : List SignalResult) (remaining : ℕ) (seen : List String) (r : SignalResult),
      r ∈ pick_loop true remaining seen l → seen.contains r.symbol = false := by
  intro l
  induction l with
  | nil => intro remaining seen r hr; simp [pick_loop] at hr
  | cons s rest ih =>
    intro remaining seen r hr
    simp only [pick_loop] at hr
    split_ifs at hr with h1 h2
    · exact ih remaining seen r hr
    · have hrs := List.mem_singleton.mp hr
      subst hrs
      simpa using h1
    · rcases List.mem_cons.mp hr with rfl | hr2
      · simpa using h1
      · have hsub := ih (remaining - 1) (s.symbol :: seen) r hr2
        simp only [List.contains_cons, Bool.or_eq_false_iff] at hsub
        exact hsub.2

theorem pick_loop_max :
    ∀ (l : List SignalResult) (remaining : ℕ) (seen : List String),
      List.Pairwise rank_rel l →
      ∀ r ∈ pick_loop true remaining seen l,
      ∀ t ∈ l, t.symbol = r.symbol → seen.contains t.symbol = false →
        ranking_score_raw t ≤ ranking_score_raw r := by
  intro l
  induction l with
  | nil => intro remaining seen _ r hr; simp [pick_loop] at hr
  | cons s rest ih =>
    intro remaining seen hp r hr t ht hsym hseen
    have hpc := List.pairwise_cons.mp hp
    simp only [pick_loop] at hr
    split_ifs at hr with h1 h2
    · rcases List.mem_cons.mp ht with rfl | ht2
      · exfalso
        have hcon : seen.contains t.symbol = true := by simpa using h1
        rw [hseen] at hcon
        simp at hcon
      · exact ih remaining seen hpc.2 r hr t ht2 hsym hseen
    · have hrs := List.mem_singleton.mp hr
      subst hrs
      rcases List.mem_cons.mp ht with rfl | ht2
      · exact le_refl _
      · exact hpc.1 t ht2
    · rcases List.mem_cons.mp hr with rfl | hr2
      · rcases List.mem_cons.mp ht with rfl | ht2
        · exact le_refl _
        · exact hpc.1 t ht2
      · have hnotseen := pick_loop_not_seen rest (remaining - 1) (s.symbol :: seen) r hr2
        simp only [List.contains_cons, Bool.or_eq_false_iff] at hnotseen
        rcases List.mem_cons.mp ht with rfl | ht2
        · exfalso
          have : (r.symbol == t.symbol) = false := by
            simpa using hnotseen.1
          rw [hsym] at this
          simp at this
        · by_cases hts : t.symbol = s.symbol
          · exfalso
            have hrs2 : r.symbol = s.symbol := by rw [← hsym, hts]
            have : (r.symbol == s.symbol) = false := by simpa using hnotseen.1
            rw [hrs2] at this
            simp at this
          · have hseen2 : (s.symbol :: seen).contains t.symbol = false := by
              simp only [List.contains_cons, Bool.or_eq_false_iff]
              exact ⟨by simpa using hts, hseen⟩
            exact ih (remaining - 1) (s.symbol :: seen) hpc.2 r hr2 t ht2 hsym hseen2

theorem pick_loop_nodup_symbols :
    ∀ (l : List SignalResult) (remaining : ℕ) (seen : List String),
      List.Pairwise (fun a b : SignalResult => a.symbol ≠ b.symbol)
        (pick_loop true remaining seen l) := by
  intro l
  induction l with
  | nil => intro remaining seen; simp [pick_loop]
  | cons s rest ih =>
    intro remaining seen
    simp only [pick_loop]
    split_ifs with h1 h2
    · exact ih remaining seen
    · simp
    · refine List.pairwise_cons.mpr ⟨?_, ih (remaining - 1) (s.symbol :: seen)⟩
      intro r hr
      have hnotseen := pick_loop_not_seen rest (remaining - 1) (s.symbol :: seen) r hr
      simp only [List.contains_cons, Bool.or_eq_false_iff] at hnotseen
      intro hc
      have : (r.symbol == s.symbol) = false := by simpa using hnotseen.1
      rw [← hc] at this
      simp at this

theorem pick_loop_length (uniq : Bool) :
    ∀ (l : List SignalResult) (remaining : ℕ) (seen : List String), 1 ≤ remaining →
      (pick_loop uniq remaining seen l).length ≤ remaining := by
  intro l
  induction l with
  | nil => intro remaining seen h; simp [pick_loop]
  | cons s rest ih =>
    intro remaining seen h
    simp only [pick_loop]
    split_ifs with h1 h2
    · exact ih remaining seen h
    · simpa using h
    · have h2' : 2 ≤ remaining := by omega
      have := ih (remaining - 1) (s.symbol :: seen) (by omega)
      simp only [List.length_cons]
      omega

theorem ranking_score_raw_update (s : SignalResult) (v : Option ℚ) :
    ranking_score_raw { s with ranking_score := v } = ranking_score_raw s := rfl

theorem rank_signals_mem_scored (signals : List SignalResult) (top_k : ℕ) (uniq : Bool)
    (r : SignalResult) (hr : r ∈ rank_signals signals top_k uniq) :
    ∃ s ∈ signals, r = { s with ranking_score := some (min (ranking_score_raw s) 1.5) } := by
  simp only [rank_signals] at hr
  split_ifs at hr with h1
  · simp at hr
  · have hsor : r ∈ List.insertionSort rank_rel (signals.map
        (fun s => { s with ranking_score := some (min (ranking_score_raw s) 1.5) })) :=
      (pick_loop_sublist uniq _ top_k []).mem hr
    have hmem := (List.perm_insertionSort rank_rel _).mem_iff.mp hsor
    rcases List.mem_map.mp hmem with ⟨s, hs, hfs⟩
    exact ⟨s, hs, hfs.symm⟩

theorem c6_raw_A : ranking_score_raw c6A = 1 := by
  simp [ranking_score_raw, c6A,
    -Bool.and_eq_true, -beq_iff_eq, -bne_iff_ne, -decide_eq_true_eq,
    show (("BUY":String) == "BUY") = true from rfl]
  norm_num

theorem c6_raw_B : ranking_score_raw c6B = 1/2 := by
  simp [ranking_score_raw, c6B,
    -Bool.and_eq_true, -beq_iff_eq, -bne_iff_ne, -decide_eq_true_eq,
    show (("HOLD":String) == "BUY") = false from rfl]
  norm_num

theorem c6_rank_eval : rank_signals [c6B, c6A] 10 true = [c6Ar, c6Br] := by
  have hfB : ({ c6B with ranking_score := some (min (ranking_score_raw c6B) 1.5) }
      : SignalResult) = c6Br := by
    rw [show c6Br = { c6B with ranking_score := some (1/2 : ℚ) } from rfl,
      c6_raw_B, show min ((1:ℚ)/2) 1.5 = 1/2 from by norm_num]
  have hfA : ({ c6A with ranking_score := some (min (ranking_score_raw c6A) 1.5) }
      : SignalResult) = c6Ar := by
    rw [show c6Ar = { c6A with ranking_score := some (1 : ℚ) } from rfl,
      c6_raw_A, show min (1:ℚ) 1.5 = 1 from by norm_num]
  have hmap : [c6B, c6A].map
      (fun s => { s with ranking_score := some (min (ranking_score_raw s) 1.5) }) =
      [c6Br, c6Ar] := by
    simp only [List.map_cons, List.map_nil]
    rw [hfB, hfA]
  have hno : ¬ rank_rel c6Br c6Ar := by
    have hA : ranking_score_raw c6Ar = 1 := c6_raw_A
    have hB : ranking_score_raw c6Br = 1/2 := c6_raw_B
    simp only [rank_rel, hA, hB]
    norm_num
  have hsorted : List.insertionSort rank_rel [c6Br, c6Ar] = [c6Ar, c6Br] := by
    simp only [List.insertionSort, List.orderedInsert]
    rw [if_neg hno]
  have hpick : pick_loop true 10 [] [c6Ar, c6Br] = [c6Ar, c6Br] := by
    simp [pick_loop, c6Ar, c6Br, c6A, c6B,
      -Bool.and_eq_true, -beq_iff_eq, -bne_iff_ne, -decide_eq_true_eq,
      show ((["A"] : List String).contains "B") = false from rfl]
  simp only [rank_signals, List.isEmpty_cons, Bool.false_eq_true, if_false]
  rw [hmap, hsorted, hpick]

/-- C6: the ranking pass stores score = confidence + 0.15·setup_valid +
0.15·trigger_met + 0.10·(signal=BUY) capped at 1.5 on every output entry,
returns the entries in descending (capped) score order, keeps at most top_k
of them, and under unique_symbol keeps for each symbol an entry whose score
is maximal among all input entries with that symbol, with no symbol
repeated.  A signal with confidence 0.6 and all flags scores exactly 1.00,
one with confidence 0.5 and no flags scores exactly 0.50, and the first
ranks strictly above the second. -/
theorem C6_rank_signals :
    (∀ (signals : List SignalResult) (top_k : ℕ) (uniq : Bool),
      ∀ r ∈ rank_signals signals top_k uniq,
        r.ranking_score = some (min (ranking_score_raw r) 1.5)) ∧
    (∀ (signals : List SignalResult) (top_k : ℕ) (uniq : Bool),
      List.Pairwise (fun a b => min (ranking_score_raw b) 1.5 ≤ min (ranking_score_raw a) 1.5)
        (rank_signals signals top_k uniq)) ∧
    (∀ (signals : List SignalResult) (top_k : ℕ) (uniq : Bool), 1 ≤ top_k →
      (rank_signals signals top_k uniq).length ≤ top_k) ∧
    (∀ (signals : List SignalResult) (top_k : ℕ),
      ∀ r ∈ rank_signals signals top_k true,
      ∀ t ∈ signals, t.symbol = r.symbol →
        ranking_score_raw t ≤ ranking_score_raw r) ∧
    (∀ (signals : List SignalResult) (top_k : ℕ),
      List.Pairwise (fun a b : SignalResult => a.symbol ≠ b.symbol)
        (rank_signals signals top_k true)) ∧
    (ranking_score_raw c6A = 1 ∧ ranking_score_raw c6B = 1/2 ∧ ((1:ℚ)/2 < 1) ∧
      rank_signals [c6B, c6A] 10 true = [c6Ar, c6Br]) := by
  refine ⟨?_, ?_, ?_, ?_, ?_, c6_raw_A, c6_raw_B, by norm_num, c6_rank_eval⟩
  · intro signals top_k uniq r hr
    rcases rank_signals_mem_scored signals top_k uniq r hr with ⟨s, _, rfl⟩
    rfl
  · intro signals top_k uniq
    simp only [rank_signals]
    split_ifs with h1
    · simp
    · have hsor : List.Pairwise rank_rel (List.insertionSort rank_rel (signals.map
          (fun s => { s with ranking_score := some (min (ranking_score_raw s) 1.5) }))) :=
        List.sorted_insertionSort rank_rel _
      have hout := List.Pairwise.sublist (pick_loop_sublist uniq _ top_k []) hsor
      exact hout.imp (fun hab => min_le_min hab (le_refl _))
  · intro signals top_k uniq htop
    simp only [rank_signals]
    split_ifs with h1
    · simp
    · exact pick_loop_length uniq _ top_k [] htop
  · intro signals top_k r hr t ht hsym
    have hrmem := hr
    simp only [rank_signals] at hrmem
    split_ifs at hrmem with h1
    · simp at hrmem
    · have hsor : List.Pairwise rank_rel (List.insertionSort rank_rel (signals.map
          (fun s => { s with ranking_score := some (min (ranking_score_raw s) 1.5) }))) :=
        List.sorted_insertionSort rank_rel _
      have htmem : ({ t with ranking_score := some (min (ranking_score_raw t) 1.5) }
          : SignalResult) ∈ List.insertionSort rank_rel (signals.map
          (fun s => { s with ranking_score := some (min (ranking_score_raw s) 1.5) })) := by
        rw [(List.perm_insertionSort rank_rel _).mem_iff]
        exact List.mem_map_of_mem _ ht
      have := pick_loop_max _ top_k [] hsor r hrmem
        { t with ranking_score := some (min (ranking_score_raw t) 1.5) } htmem hsym rfl
      rw [ranking_score_raw_update] at this
      exact this
  · intro signals top_k
    simp only [rank_signals]
    split_ifs with h1
    · simp
    · exact pick_loop_nodup_symbols _ top_k []

/-- C6 witness: the max-per-symbol law applied at the concrete two-signal
scenario, where A is kept and its score 1 dominates every same-symbol
input. -/
theorem C6_rank_signals_witness :
    (1:ℕ) ≤ 10 ∧ (rank_signals [c6B, c6A] 10 true).length ≤ 10 ∧
    (c6Ar ∈ rank_signals [c6B, c6A] 10 true ∧
      c6A.symbol = c6Ar.symbol ∧
      ranking_score_raw c6A ≤ ranking_score_raw c6Ar) := by
  have hmem : c6Ar ∈ rank_signals [c6B, c6A] 10 true := by
    rw [c6_rank_eval]
    exact List.mem_cons_self _ _
  have hsym : c6A.symbol = c6Ar.symbol := rfl
  refine ⟨by norm_num, C6_rank_signals.2.2.1 [c6B, c6A] 10 true (by norm_num), hmem, hsym, ?_⟩
  exact C6_rank_signals.2.2.2.1 [c6B, c6A] 10 c6Ar hmem c6A (by simp) hsym

theorem rolling_mean_getElem_window (p : ℕ) (xs : List ℚ) (i : ℕ)
    (hi : i < xs.length) (hw : p ≤ i + 1) :
    (rolling_mean p xs)[i]? = some (some (((xs.take (i + 1)).drop (i + 1 - p)).sum / p)) := by
  simp [rolling_mean, List.getElem?_map, List.getElem?_range, hi, hw]

theorem rolling_mean_getElem_warmup (p : ℕ) (xs : List ℚ) (i : ℕ)
    (hi : i < xs.length) (hw : i + 1 < p) :
    (rolling_mean p xs)[i]? = some none := by
  simp [rolling_mean, List.getElem?_map, List.getElem?_range, hi, not_le.mpr hw]

/-- C8 (amended): after the SMA-trend setup runs, the setup_valid column has
one cell per input row and never raises, even on sequences shorter than the
windows; a cell is a concrete boolean once both SMA warm-up windows are
satisfied, but on warm-up rows (for the ABOVE/BELOW directions) it is null,
not false — the polars comparison propagates the SMA nulls. -/
theorem C8_setup_sma_trend (closes : List ℚ) (fast slow : ℕ) (direction : String) :
    (setup_sma_trend closes fast slow direction).length = closes.length ∧
    (∀ i, i < closes.length → fast ≤ i + 1 → slow ≤ i + 1 →
      ∃ b : Bool, (setup_sma_trend closes fast slow direction)[i]? = some (some b)) ∧
    ((direction = "ABOVE" ∨ direction = "BELOW") →
      ∀ i, i < closes.length → (i + 1 < fast ∨ i + 1 < slow) →
        (setup_sma_trend closes fast slow direction)[i]? = some none) := by
  refine ⟨?_, ?_, ?_⟩
  · simp only [setup_sma_trend]
    split_ifs <;>
      simp [calculate_sma, rolling_mean]
  · intro i hi hf hs
    simp only [setup_sma_trend]
    split_ifs with h1 h2
    · rw [List.getElem?_zipWith']
      rw [show calculate_sma fast closes = rolling_mean fast closes from rfl,
        show calculate_sma slow closes = rolling_mean slow closes from rfl,
        rolling_mean_getElem_window fast closes i hi hf,
        rolling_mean_getElem_window slow closes i hi hs]
      exact ⟨_, rfl⟩
    · rw [List.getElem?_zipWith']
      rw [show calculate_sma fast closes = rolling_mean fast closes from rfl,
        show calculate_sma slow closes = rolling_mean slow closes from rfl,
        rolling_mean_getElem_window fast closes i hi hf,
        rolling_mean_getElem_window slow closes i hi hs]
      exact ⟨_, rfl⟩
    · refine ⟨true, ?_⟩
      simp [List.getElem?_map, hi]
  · intro hdir i hi hw
    simp only [setup_sma_trend]
    have hone : ¬ (direction == "ABOVE") = true ∨ ¬ (direction == "BELOW") = true := by
      rcases hdir with h | h <;> subst h <;> simp
    split_ifs with h1 h2
    · rw [List.getElem?_zipWith']
      rcases hw with hw | hw
      · rw [show calculate_sma fast closes = rolling_mean fast closes from rfl,
          rolling_mean_getElem_warmup fast closes i hi hw]
        cases hcol : (calculate_sma slow closes)[i]? with
        | none =>
          exfalso
          have hlen : (calculate_sma slow closes).length = closes.length := by
            simp [calculate_sma, rolling_mean]
          rw [List.getElem?_eq_none_iff] at hcol
          omega
        | some c =>
          cases c <;> rfl
      · rw [show calculate_sma slow closes = rolling_mean slow closes from rfl,
          rolling_mean_getElem_warmup slow closes i hi hw]
        cases hcol : (calculate_sma fast closes)[i]? with
        | none =>
          exfalso
          have hlen : (calculate_sma fast closes).length = closes.length := by
            simp [calculate_sma, rolling_mean]
          rw [List.getElem?_eq_none_iff] at hcol
          omega
        | some c =>
          cases c <;> rfl
    · rw [List.getElem?_zipWith']
      rcases hw with hw | hw
      · rw [show calculate_sma fast closes = rolling_mean fast closes from rfl,
          rolling_mean_getElem_warmup fast closes i hi hw]
        cases hcol : (calculate_sma slow closes)[i]? with
        | none =>
          exfalso
          have hlen : (calculate_sma slow closes).length = closes.length := by
            simp [calculate_sma, rolling_mean]
          rw [List.getElem?_eq_none_iff] at hcol
          omega
        | some c =>
          cases c <;> rfl
      · rw [show calculate_sma slow closes = rolling_mean slow closes from rfl,
          rolling_mean_getElem_warmup slow closes i hi hw]
        cases hcol : (calculate_sma fast closes)[i]? with
        | none =>
          exfalso
          have hlen : (calculate_sma fast closes).length = closes.length := by
            simp [calculate_sma, rolling_mean]
          rw [List.getElem?_eq_none_iff] at hcol
          omega
        | some c =>
          cases c <;> rfl
    · exfalso
      rcases hone with h | h
      · exact h (by rcases hdir with hd | hd
                    · exact absurd hd (by simpa using h1)
                    · exact absurd hd (by simpa using h2))
      · exact h (by rcases hdir with hd | hd
                    · exact absurd hd (by simpa using h1)
                    · exact absurd hd (by simpa using h2))

/-- C8 counterexample: with closes [1,2,3], fast SMA window 2, slow window 3
and direction ABOVE, the first row's setup_valid cell is null, not the
boolean false the claim requires on warm-up rows. -/
theorem C8_counterexample :
    (setup_sma_trend [1, 2, 3] 2 3 "ABOVE")[0]? = some none ∧
    some (none : Option Bool) ≠ some (some false) := by
  constructor
  · rfl
  · simp

/-- C8 witness: at row 2 of closes [1,2,3] both windows (2 and 3) are
satisfied and the cell is a concrete boolean, while row 0 is a warm-up row
and its cell is null. -/
theorem C8_setup_sma_trend_witness :
    ((2:ℕ) ≤ 2 + 1 ∧ (3:ℕ) ≤ 2 + 1) ∧
    (∃ b : Bool, (setup_sma_trend [1, 2, 3] 2 3 "ABOVE")[2]? = some (some b)) ∧
    (setup_sma_trend [1, 2, 3] 2 3 "ABOVE")[0]? = some none := by
  refine ⟨⟨by norm_num, by norm_num⟩, ?_, ?_⟩
  · exact (C8_setup_sma_trend [1, 2, 3] 2 3 "ABOVE").2.1 2 (by norm_num) (by norm_num)
      (by norm_num)
  · exact (C8_setup_sma_trend [1, 2, 3] 2 3 "ABOVE").2.2 (Or.inl rfl) 0 (by norm_num)
      (Or.inl (by norm_num))

theorem kand_eq_some_true {a b : Option Bool} (h : kand a b = some true) :
    a = some true ∧ b = some true := by
  rcases a with _ | av
  · rcases b with _ | bv
    · simp [kand] at h
    · rcases bv <;> simp [kand] at h
  · rcases av
    · simp [kand] at h
    · rcases b with _ | bv
      · simp [kand] at h
      · rcases bv
        · simp [kand] at h
        · exact ⟨rfl, rfl⟩

/-- C4 (amended): whenever the frame passed to a candle-pattern trigger
carries a setup_valid column, a non-HOLD signal appears on a row only where
that row's setup_valid cell is true — the trigger condition is conjoined
with the setup mask — for both the legacy trigger and the
requirements-format trigger; but in the requirements format the mask
defaults to constant true when the setup_valid column is absent from the
frame (as happens when the setup step ran on a different timeframe), and
the trigger then fires on the pattern alone. -/
theorem C4_trigger_requires_setup :
    (∀ (pattern : CandlePattern) (col : List (Option Bool)) (rows : List Candle)
        (i : ℕ) (v : String),
      (trigger_candle_pattern_requirements pattern (some col) rows)[i]? = some v →
      v ≠ "HOLD" →
      col[i]? = some (some true)) ∧
    (∀ (pattern : String) (col : List (Option Bool)) (rows : List Candle)
        (i : ℕ) (v : String),
      (trigger_candle_pattern pattern col rows)[i]? = some v →
      v ≠ "HOLD" →
      col[i]? = some (some true)) ∧
    trigger_candle_pattern_requirements CandlePattern.GREEN_CANDLE none
      [{ open_ := 1, high := 2, low := 1, close := 2 }] = ["BUY"] := by
  refine ⟨?_, ?_, by decide⟩
  · intro pattern col rows i v hv hne
    simp only [trigger_candle_pattern_requirements, List.getElem?_map] at hv
    rcases Option.map_eq_some'.mp hv with ⟨a, ha, hfa⟩
    have hi : i < rows.length := by
      by_contra hge
      rw [List.getElem?_eq_none (by simpa using Nat.le_of_not_lt hge)] at ha
      exact Option.noConfusion ha
    have hri : (List.range rows.length)[i]? = some i := by simp [hi]
    rw [hri] at ha
    have hai : a = i := (Option.some.inj ha).symm
    subst hai
    rcases hk : kand ((col[a]?).getD none) (pattern_condition pattern rows a) with _ | b
    · rw [hk] at hfa
      simp at hfa
      exact absurd hfa.symm hne
    · rcases b with _ | _
      · rw [hk] at hfa
        simp at hfa
        exact absurd hfa.symm hne
      · have hmask := (kand_eq_some_true hk).1
        rcases hc : col[a]? with _ | cell
        · rw [hc] at hmask
          simp at hmask
        · rw [hc] at hmask
          simp only [Option.getD_some] at hmask
          rw [hmask]
  · intro pattern col rows i v hv hne
    simp only [trigger_candle_pattern, List.getElem?_map] at hv
    rcases Option.map_eq_some'.mp hv with ⟨a, ha, hfa⟩
    have hi : i < rows.length := by
      by_contra hge
      rw [List.getElem?_eq_none (by simpa using Nat.le_of_not_lt hge)] at ha
      exact Option.noConfusion ha
    have hri : (List.range rows.length)[i]? = some i := by simp [hi]
    rw [hri] at ha
    have hai : a = i := (Option.some.inj ha).symm
    subst hai
    split_ifs at hfa with hb1 hb2
    · rcases hk : kand ((col[a]?).getD none)
          (kand (kand (opt_lt (oOpen rows 0 a) (oClose rows 1 a))
            (opt_gt (oClose rows 0 a) (oOpen rows 1 a)))
            (opt_gt (oClose rows 0 a) (oOpen rows 0 a))) with _ | b
      · rw [hk] at hfa
        simp at hfa
        exact absurd hfa.symm hne
      · rcases b with _ | _
        · rw [hk] at hfa
          simp at hfa
          exact absurd hfa.symm hne
        · have hmask := (kand_eq_some_true hk).1
          rcases hc : col[a]? with _ | cell
          · rw [hc] at hmask
            simp at hmask
          · rw [hc] at hmask
            simp only [Option.getD_some] at hmask
            rw [hmask]
    · rcases hk : kand ((col[a]?).getD none)
          (kand (kand (opt_gt (oOpen rows 0 a) (oClose rows 1 a))
            (opt_lt (oClose rows 0 a) (oOpen rows 1 a)))
            (opt_lt (oClose rows 0 a) (oOpen rows 0 a))) with _ | b
      · rw [hk] at hfa
        simp at hfa
        exact absurd hfa.symm hne
      · rcases b with _ | _
        · rw [hk] at hfa
          simp at hfa
          exact absurd hfa.symm hne
        · have hmask := (kand_eq_some_true hk).1
          rcases hc : col[a]? with _ | cell
          · rw [hc] at hmask
            simp at hmask
          · rw [hc] at hmask
            simp only [Option.getD_some] at hmask
            rw [hmask]
    · exact absurd hfa.symm hne

/-- C4 witness: with a setup_valid column whose single cell is true, the
green-candle requirements trigger emits BUY on that row and the theorem
recovers that the cell is true. -/
theorem C4_trigger_requires_setup_witness :
    (trigger_candle_pattern_requirements CandlePattern.GREEN_CANDLE (some [some true])
        [{ open_ := 1, high := 2, low := 1, close := 2 }])[0]? = some "BUY" ∧
    ("BUY" : String) ≠ "HOLD" ∧
    ([some true] : List (Option Bool))[0]? = some (some true) := by
  refine ⟨by decide, by decide, ?_⟩
  exact C4_trigger_requires_setup.1 CandlePattern.GREEN_CANDLE [some true]
    [{ open_ := 1, high := 2, low := 1, close := 2 }] 0 "BUY" (by decide) (by decide)

/-- C4 counterexample: when the setup_valid column is absent from the frame
handed to the requirements trigger, a BUY is emitted although no row has a
true setup_valid cell, refuting the claim that BUY/SELL appear only where
setup_valid is true. -/
theorem C4_counterexample :
    trigger_candle_pattern_requirements CandlePattern.GREEN_CANDLE none
      [{ open_ := 1, high := 2, low := 1, close := 2 }] = ["BUY"] ∧
    ¬ (∀ i : ℕ,
      (trigger_candle_pattern_requirements CandlePattern.GREEN_CANDLE none
        [{ open_ := 1, high := 2, low := 1, close := 2 }])[i]? = some "BUY" →
      ∃ col : List (Option Bool), (none : Option (List (Option Bool))) = some col ∧
        col[i]? = some (some true)) := by
  refine ⟨by decide, ?_⟩
  intro h
  rcases h 0 (by decide) with ⟨col, hcol, _⟩
  exact Option.noConfusion hcol

theorem le_foldl_max : ∀ (xs : List ℚ) (x : ℚ), x ≤ xs.foldl max x
  | [], x => le_refl x
  | y :: ys, x => le_trans (le_max_left x y) (le_foldl_max ys (max x y))

theorem foldl_max_le_of_mem : ∀ (xs : List ℚ) (x y : ℚ), y ∈ xs → y ≤ xs.foldl max x := by
  intro xs
  induction xs with
  | nil => intro x y h; simp at h
  | cons z zs ih =>
    intro x y h
    rcases List.mem_cons.mp h with rfl | h2
    · exact le_trans (le_max_right x y) (le_foldl_max zs (max x y))
    · exact ih (max x z) y h2

theorem foldl_max_mem : ∀ (xs : List ℚ) (x : ℚ), xs.foldl max x ∈ x :: xs := by
  intro xs
  induction xs with
  | nil => intro x; simp
  | cons y ys ih =>
    intro x
    have h := ih (max x y)
    rcases List.mem_cons.mp h with heq | hmem
    · rcases max_choice x y with hc | hc
      · simp only [List.foldl_cons]
        rw [heq, hc]
        simp
      · simp only [List.foldl_cons]
        rw [heq, hc]
        simp
    · simp only [List.foldl_cons]
      exact List.mem_cons_of_mem x (List.mem_cons_of_mem y hmem)

theorem foldl_min_le : ∀ (xs : List ℚ) (x : ℚ), xs.foldl min x ≤ x
  | [], x => le_refl x
  | y :: ys, x => le_trans (foldl_min_le ys (min x y)) (min_le_left x y)

theorem foldl_min_le_of_mem : ∀ (xs : List ℚ) (x y : ℚ), y ∈ xs → xs.foldl min x ≤ y := by
  intro xs
  induction xs with
  | nil => intro x y h; simp at h
  | cons z zs ih =>
    intro x y h
    rcases List.mem_cons.mp h with rfl | h2
    · exact le_trans (foldl_min_le zs (min x y)) (min_le_right x y)
    · exact ih (min x z) y h2

theorem foldl_min_mem : ∀ (xs : List ℚ) (x : ℚ), xs.foldl min x ∈ x :: xs := by
  intro xs
  induction xs with
  | nil => intro x; simp
  | cons y ys ih =>
    intro x
    have h := ih (min x y)
    rcases List.mem_cons.mp h with heq | hmem
    · rcases min_choice x y with hc | hc
      · simp only [List.foldl_cons]
        rw [heq, hc]
        simp
      · simp only [List.foldl_cons]
        rw [heq, hc]
        simp
    · simp only [List.foldl_cons]
      exact List.mem_cons_of_mem x (List.mem_cons_of_mem y hmem)

theorem list_max_spec (xs : List ℚ) (hx : xs ≠ []) :
    ∃ v, list_max xs = some v ∧ v ∈ xs ∧ ∀ y ∈ xs, y ≤ v := by
  cases xs with
  | nil => exact absurd rfl hx
  | cons x t =>
    refine ⟨t.foldl max x, rfl, foldl_max_mem t x, ?_⟩
    intro y hy
    rcases List.mem_cons.mp hy with rfl | h2
    · exact le_foldl_max t y
    · exact foldl_max_le_of_mem t x y h2

theorem list_min_spec (xs : List ℚ) (hx : xs ≠ []) :
    ∃ v, list_min xs = some v ∧ v ∈ xs ∧ ∀ y ∈ xs, v ≤ y := by
  cases xs with
  | nil => exact absurd rfl hx
  | cons x t =>
    refine ⟨t.foldl min x, rfl, foldl_min_mem t x, ?_⟩
    intro y hy
    rcases List.mem_cons.mp hy with rfl | h2
    · exact foldl_min_le t y
    · exact foldl_min_le_of_mem t x y h2

/-- C9: for a date-sorted 1-day bar sequence and any window size N ≥ 1,
every row of the N-day resample aggregates its bucket (the bars whose
window key matches the row's) with open = first bar's open, high = maximum
high, low = minimum low, close = last bar's close and volume = sum of
volumes, and every bucket is non-empty. -/
theorem C9_resample_law (N : ℕ) (hN : 1 ≤ N) (bars : List Bar)
    (hs : List.Sorted barDayLE bars)
    (r : ResampledBar) (hr : r ∈ resample_ohlcv N bars) :
    bars.filter (fun b => bucket_key N b == r.date / N) ≠ [] ∧
    r.open_ = ((bars.filter (fun b => bucket_key N b == r.date / N)).map Bar.open_).head? ∧
    r.close = ((bars.filter (fun b => bucket_key N b == r.date / N)).map Bar.close).getLast? ∧
    r.volume = ((bars.filter (fun b => bucket_key N b == r.date / N)).map Bar.volume).sum ∧
    (∃ hv, r.high = some hv ∧
      hv ∈ (bars.filter (fun b => bucket_key N b == r.date / N)).map Bar.high ∧
      ∀ y ∈ (bars.filter (fun b => bucket_key N b == r.date / N)).map Bar.high, y ≤ hv) ∧
    (∃ lv, r.low = some lv ∧
      lv ∈ (bars.filter (fun b => bucket_key N b == r.date / N)).map Bar.low ∧
      ∀ y ∈ (bars.filter (fun b => bucket_key N b == r.date / N)).map Bar.low, lv ≤ y) := by
  have hsort : List.insertionSort barDayLE bars = bars := List.Sorted.insertionSort_eq hs
  simp only [resample_ohlcv, hsort] at hr
  rcases List.mem_map.mp hr with ⟨k, hk, rfl⟩
  have hdate : (agg_bucket N k (bars.filter (fun b => bucket_key N b == k))).date / N = k := by
    simp only [agg_bucket]
    exact Nat.mul_div_cancel k (lt_of_lt_of_le Nat.zero_lt_one hN)
  rw [hdate]
  have hne : bars.filter (fun b => bucket_key N b == k) ≠ [] := by
    rcases List.mem_dedup.mp hk with hmem
    rcases List.mem_map.mp hmem with ⟨b, hb, hkey⟩
    intro hempty
    have : b ∈ bars.filter (fun b => bucket_key N b == k) :=
      List.mem_filter.mpr ⟨hb, by simp [hkey]⟩
    rw [hempty] at this
    simp at this
  have hmapne_h : (bars.filter (fun b => bucket_key N b == k)).map Bar.high ≠ [] := by
    simpa using hne
  have hmapne_l : (bars.filter (fun b => bucket_key N b == k)).map Bar.low ≠ [] := by
    simpa using hne
  refine ⟨hne, rfl, rfl, rfl, ?_, ?_⟩
  · rcases list_max_spec _ hmapne_h with ⟨v, hv1, hv2, hv3⟩
    exact ⟨v, hv1, hv2, hv3⟩
  · rcases list_min_spec _ hmapne_l with ⟨v, hv1, hv2, hv3⟩
    exact ⟨v, hv1, hv2, hv3⟩

theorem c9_eval : resample_ohlcv 2 c9bars = [c9r0, c9r1] := by
  have hsort : List.insertionSort barDayLE c9bars = c9bars := rfl
  have hk : window_keys 2 c9bars = [0, 1] := by decide
  have hf0 : c9bars.filter (fun b => bucket_key 2 b == 0) = [c9b0, c9b1] := by decide
  have hf1 : c9bars.filter (fun b => bucket_key 2 b == 1) = [c9b2] := by decide
  simp only [resample_ohlcv, hsort, hk, List.map_cons, List.map_nil, hf0, hf1]
  simp [agg_bucket, list_max, list_min, c9b0, c9b1, c9b2, c9r0, c9r1,
    show max (15:ℚ) 20 = 20 from by norm_num,
    show min (9:ℚ) 11 = 9 from by norm_num,
    show (100:ℚ) + 50 = 150 from by norm_num]

/-- C9 witness: days 0,1,2 resampled into 2-day windows; the first output
row aggregates the bars of days 0 and 1 with open 10, high 20, low 9,
close 13 and volume 150. -/
theorem C9_resample_law_witness :
    (1:ℕ) ≤ 2 ∧ List.Sorted barDayLE c9bars ∧
    (c9bars.filter (fun b => bucket_key 2 b == c9r0.date / 2) ≠ [] ∧
      c9r0.open_ =
        ((c9bars.filter (fun b => bucket_key 2 b == c9r0.date / 2)).map Bar.open_).head? ∧
      c9r0.close =
        ((c9bars.filter (fun b => bucket_key 2 b == c9r0.date / 2)).map Bar.close).getLast? ∧
      c9r0.volume =
        ((c9bars.filter (fun b => bucket_key 2 b == c9r0.date / 2)).map Bar.volume).sum ∧
      (∃ hv, c9r0.high = some hv ∧
        hv ∈ (c9bars.filter (fun b => bucket_key 2 b == c9r0.date / 2)).map Bar.high ∧
        ∀ y ∈ (c9bars.filter (fun b => bucket_key 2 b == c9r0.date / 2)).map Bar.high,
          y ≤ hv) ∧
      (∃ lv, c9r0.low = some lv ∧
        lv ∈ (c9bars.filter (fun b => bucket_key 2 b == c9r0.date / 2)).map Bar.low ∧
        ∀ y ∈ (c9bars.filter (fun b => bucket_key 2 b == c9r0.date / 2)).map Bar.low,
          lv ≤ y)) := by
  have hsorted : List.Sorted barDayLE c9bars := by
    simp [c9bars, c9b0, c9b1, c9b2, List.Sorted, barDayLE]
  refine ⟨by norm_num, hsorted, ?_⟩
  exact C9_resample_law 2 (by norm_num) c9bars hsorted c9r0
    (by rw [c9_eval]; exact List.mem_cons_self _ _)

end TradLyte
